import Mathlib

/-!
DX11 renderer: resource lifecycle and per-frame protocol.

A shallow embedding of `src/src/dx11_renderer.cpp` (class `DX11RendererImpl`) and of the
`process_frame` binding of `src/src/python_bindings.cpp`.

Modelling conventions.

* A COM pointer member is an `Option`: `none` is `nullptr`.  Every object the driver hands out
  gets a number of its own from the counter `nextHandle`, so that two acquisitions are never
  confused even when the driver reuses an address.
* Every call into the D3D11 runtime is appended to `log`.  The `HRESULT` of a call that can fail
  is not computed by the program: it is an input of the model (the oracle structures below).
* A C++ exception is an `Except.error` returned together with the state reached when it was
  thrown, because the members written before the `throw` keep their values.
* `float` coefficients are rationals; `pow` is a parameter of the kernel.
* A byte is `Option Nat`; `none` is a byte whose value is indeterminate (memory that was never
  written, or that lies outside the buffer it is read from).
-/

namespace dx11_renderer

/-! ## Data model -/

/-- One byte of host or GPU memory; `none` when its value is indeterminate. -/
abbrev Byte := Option Nat

/-- Byte-addressed memory, indexed by the offset from a base pointer. -/
abbrev Mem := Nat → Byte

/-- Status record of `include/dx11_renderer.h`, with its member initialisers. -/
structure RendererStatus where
  isInitialized : Bool := false
  textureWidth : Nat := 0
  textureHeight : Nat := 0
  lastProcessingTime : ℚ := 0
  lastError : String := ""
  deriving DecidableEq

/-- Colour coefficients of `include/dx11_renderer.h`, with their member initialisers. -/
structure ProcessingParams where
  brightness : ℚ := 1
  contrast : ℚ := 1
  saturation : ℚ := 1
  gamma : ℚ := 1
  deriving DecidableEq

/-- The part of `cv::Mat` the renderer touches: `rows`, `cols`, the bytes per pixel of the
element type (`CV_8UC3` is 3, `CV_8UC4` is 4), `step[0]` and the bytes behind `data`. -/
structure Mat where
  rows : Nat
  cols : Nat
  elemSize : Nat
  step : Nat
  data : Mem

/-- A 2D texture of format `DXGI_FORMAT_R8G8B8A8_UNORM` (4 bytes per texel):
`texels y k` is byte `k` of row `y`. -/
structure Texture2D where
  handle : Nat
  width : Nat
  height : Nat
  texels : Nat → Nat → Byte

/-- A shader-resource or unordered-access view, with the texture it was created on. -/
structure View where
  handle : Nat
  resource : Nat
  deriving DecidableEq

/-- The dynamic constant buffer and the coefficients it holds on the GPU. -/
structure Buffer where
  handle : Nat
  contents : ProcessingParams
  deriving DecidableEq

/-- The two compiler blobs of `createShaders`. -/
inductive Blob where
  | shaderBlob
  | errorBlob
  deriving DecidableEq

/-- Calls into the D3D11 runtime, in the order the program issues them. -/
inductive GpuOp where
  /-- A creation call succeeded and returned object `h`. -/
  | acquire (h : Nat)
  /-- A creation call returned a failure code. -/
  | createFailed
  /-- A call of `Release` on object `h`. -/
  | release (h : Nat)
  /-- A `D3DCompile` call and whether it succeeded. -/
  | compile (ok : Bool)
  /-- A `Release` of a compiler blob. -/
  | blobRelease (b : Blob)
  /-- The `Map(constBuffer, WRITE_DISCARD)` call and whether it succeeded. -/
  | mapWrite (buf : Option Nat) (ok : Bool)
  /-- An `Unmap` call. -/
  | unmap (res : Option Nat)
  /-- The `UpdateSubresource` call: destination, and the byte ranges `[lo, hi)` of the host
  buffer it reads, one per texture row. -/
  | updateSubresource (dst : Option Nat) (reads : List (Nat × Nat))
  /-- The four `CSSet...` calls: shader, constant buffer, input view, output view. -/
  | csBind (shader cb srv uav : Option Nat)
  /-- The `Dispatch(x, y, z)` call. -/
  | dispatch (x y z : Nat)
  /-- The `CopySubresourceRegion(dst, ..., src, ..., box)` call with the box `w` by `h`. -/
  | copySubresourceRegion (dst src : Option Nat) (w h : Nat)
  /-- The `CopyResource(dst, src)` call. -/
  | copyResource (dst src : Option Nat)
  /-- The `Map(outputTexture, READ)` call and whether it succeeded. -/
  | mapRead (res : Option Nat) (ok : Bool)
  deriving DecidableEq

/-- The members of `DX11RendererImpl` with their initialisers, followed by the two
bookkeeping fields of the model: the handle counter and the log of runtime calls. -/
structure Renderer where
  device : Option Nat := none
  context : Option Nat := none
  constBuffer : Option Buffer := none
  computeShader : Option Nat := none
  inputTextureSRV : Option View := none
  outputTextureUAV : Option View := none
  inputTexture : Option Texture2D := none
  outputTexture : Option Texture2D := none
  status : RendererStatus := {}
  params : ProcessingParams := {}
  nextHandle : Nat := 0
  log : List GpuOp := []

/-- Result of `D3DCompile`: on success the shader blob is set and the error blob may carry
warnings; on failure the error blob may carry the diagnostic and the shader blob may be set. -/
inductive CompileResult where
  | ok (warnings : Option String)
  | failed (diagnostic : Option String) (hasShaderBlob : Bool)

/-- Outcomes of the fallible calls of construction (`true` is `SUCCEEDED`). -/
structure ConstructOracle where
  device : Bool
  constBuffer : Bool
  compile : CompileResult
  computeShader : Bool

/-- Outcomes of the four creation calls of `createTextures`. -/
structure TextureOracle where
  inputTexture : Bool
  inputTextureSRV : Bool
  outputTexture : Bool
  outputTextureUAV : Bool
  deriving DecidableEq

/-- Outcomes of the fallible calls of one `processFrame`: the four creations, the map of the
constant buffer, and the map of the output texture (`some rowPitch` on success). -/
structure FrameOracle where
  textures : TextureOracle
  mapConstBuffer : Bool
  mapOutput : Option Nat
  deriving DecidableEq

/-- Appends one runtime call to the log. -/
def emit (op : GpuOp) (s : Renderer) : Renderer :=
  { s with log := s.log ++ [op] }

/-! ## Host-side byte copies -/

/-- Effect of `memcpy(dst + dOff, src + sOff, n)` on the destination memory. -/
def memcpy (dst : Mem) (dOff : Nat) (src : Mem) (sOff n : Nat) : Mem :=
  fun a => if dOff ≤ a ∧ a < dOff + n then src (sOff + (a - dOff)) else dst a

/-- The readback loop of `processFrame` (lines 243-247) with `n` iterations left, the source
cursor at `sOff` and the destination cursor at `dOff`: each iteration copies `cols * 4` bytes,
then advances the source by `rowPitch` and the destination by `step`. -/
def readbackLoop (cols rowPitch step : Nat) (src : Mem) : Nat → Nat → Nat → Mem → Mem
  | 0, _, _, dst => dst
  | n + 1, sOff, dOff, dst =>
    readbackLoop cols rowPitch step src n (sOff + rowPitch) (dOff + step)
      (memcpy dst dOff src sOff (cols * 4))

/-- Effect of `outputFrame.create(rows, cols, CV_8UC4)`: a fresh, tightly packed buffer whose
bytes are not yet written. -/
def Mat.create (rows cols : Nat) : Mat :=
  { rows := rows, cols := cols, elemSize := 4, step := cols * 4, data := fun _ => none }

/-- The `cv::Mat(rows, cols, CV_8UC3, data)` header the binding builds over the bytes of a
C-contiguous array: 3 bytes per pixel, `step = cols * 3`, no byte beyond the array. -/
def Mat.ofArray (rows cols : Nat) (bytes : List Nat) : Mat :=
  { rows := rows, cols := cols, elemSize := 3, step := cols * 3, data := fun a => bytes[a]? }

/-! ## Thread-group counts -/

/-- Two's-complement value of a 32-bit `int` result. -/
def wrapInt32 (z : Int) : Int := (z + 2 ^ 31) % 2 ^ 32 - 2 ^ 31

/-- Conversion of an `int` to `UINT`. -/
def toUINT (z : Int) : Nat := (z % 2 ^ 32).toNat

/-- The expression `(n + 7) / 8` of lines 228-229: `int` addition, `int` division (which
truncates), and the conversion to `UINT` of the initialisation. -/
def threadGroups (n : Int) : Nat := toUINT (Int.tdiv (wrapInt32 (n + 7)) 8)

/-- The three arguments of `Dispatch` for a frame (lines 228-230). -/
def dispatchArgs (inputFrame : Mat) : Nat × Nat × Nat :=
  (threadGroups inputFrame.cols, threadGroups inputFrame.rows, 1)

/-! ## The compute kernel and the GPU-side copies -/

/-- An HLSL `float4`. -/
structure Float4 where
  x : ℚ
  y : ℚ
  z : ℚ
  w : ℚ

/-- HLSL `lerp(a, b, t)`. -/
def lerp (a b t : ℚ) : ℚ := a + t * (b - a)

/-- Body of the kernel `main` (lines 87-104) on the texel it loaded for its thread;
`powf` is the `pow` intrinsic. -/
def shaderMain (powf : ℚ → ℚ → ℚ) (p : ProcessingParams) (color : Float4) : Float4 :=
  -- color.rgb *= brightness
  let r := color.x * p.brightness
  let g := color.y * p.brightness
  let b := color.z * p.brightness
  -- luminance = dot(color.rgb, lumCoeff); color.rgb = lerp(luminance, color.rgb, contrast)
  let luminance := r * 0.2126 + g * 0.7152 + b * 0.0722
  let r := lerp luminance r p.contrast
  let g := lerp luminance g p.contrast
  let b := lerp luminance b p.contrast
  -- color.rgb = lerp(desaturated, color.rgb, saturation)
  let r := lerp luminance r p.saturation
  let g := lerp luminance g p.saturation
  let b := lerp luminance b p.saturation
  -- color.rgb = pow(color.rgb, 1.0 / gamma)
  ⟨powf r (1 / p.gamma), powf g (1 / p.gamma), powf b (1 / p.gamma), color.w⟩

/-- Conversion of a float to an 8-bit UNORM channel on a texture write: clamp to `[0, 1]`,
scale by 255, round to nearest. -/
def unorm8 (v : ℚ) : Nat := (⌊max 0 (min 1 v) * 255 + 1 / 2⌋).toNat

/-- Read of `inputTexture[DTid.xy]` through the bound view: the four UNORM channels as floats,
zero outside the texture, indeterminate when a byte of the texel is. -/
def loadTexel (t : Texture2D) (x y : Nat) : Option Float4 :=
  if x < t.width ∧ y < t.height then
    match t.texels y (4 * x), t.texels y (4 * x + 1), t.texels y (4 * x + 2),
        t.texels y (4 * x + 3) with
    | some r, some g, some b, some a => some ⟨r / 255, g / 255, b / 255, a / 255⟩
    | _, _, _, _ => none
  else some ⟨0, 0, 0, 0⟩

/-- Channel `ch` of the byte encoding of a texel value written to the output texture. -/
def storeChannel (c : Option Float4) (ch : Nat) : Byte :=
  c.map fun c =>
    match ch with
    | 0 => unorm8 c.x
    | 1 => unorm8 c.y
    | 2 => unorm8 c.z
    | _ => unorm8 c.w

/-- Effect of `Dispatch(gx, gy, 1)` on the output texture behind the bound view: thread
`(x, y)` with `x < 8 * gx` and `y < 8 * gy` writes `main` of the input texel at `(x, y)` to
the output texel at `(x, y)`; writes outside the output texture are dropped. -/
def runKernel (powf : ℚ → ℚ → ℚ) (p : ProcessingParams) (gx gy : Nat)
    (input : Option Texture2D) (out : Texture2D) : Texture2D :=
  { out with
    texels := fun y k =>
      if y < out.height ∧ k < 4 * out.width ∧ k / 4 < 8 * gx ∧ y < 8 * gy then
        storeChannel
          ((match input with
            | some t => loadTexel t (k / 4) y
            | none => some ⟨0, 0, 0, 0⟩).map (shaderMain powf p)) (k % 4)
      else out.texels y k }

/-- The byte ranges `[lo, hi)` of the host buffer that `UpdateSubresource` reads when it fills
the whole of `t` (null destination box) from rows `srcRowPitch` bytes apart: `4 * width`
bytes for each of the `height` rows. -/
def uploadReads (t : Texture2D) (srcRowPitch : Nat) : List (Nat × Nat) :=
  (List.range t.height).map fun y => (y * srcRowPitch, y * srcRowPitch + 4 * t.width)

/-- Effect of `UpdateSubresource(t, 0, nullptr, src, srcRowPitch, 0)` on the texture. -/
def updateSubresource (t : Texture2D) (src : Mem) (srcRowPitch : Nat) : Texture2D :=
  { t with
    texels := fun y k =>
      if y < t.height ∧ k < 4 * t.width then src (y * srcRowPitch + k) else t.texels y k }

/-- Effect of `CopySubresourceRegion(dst, 0, 0, 0, 0, src, 0, box)` with the box `w` by `h`
at the origin; the runtime drops a call whose box does not fit both textures. -/
def copySubresourceRegion (dst src : Texture2D) (w h : Nat) : Texture2D :=
  if w ≤ src.width ∧ h ≤ src.height ∧ w ≤ dst.width ∧ h ≤ dst.height then
    { dst with texels := fun y k => if y < h ∧ k < 4 * w then src.texels y k else dst.texels y k }
  else dst

/-- Effect of `CopyResource(dst, src)`: the whole of `src` replaces the contents of `dst`;
the runtime drops the call when the two textures differ in size. -/
def copyResource (dst src : Texture2D) : Texture2D :=
  if dst.width = src.width ∧ dst.height = src.height then { dst with texels := src.texels }
  else dst

/-- The memory a successful `Map` of `t` exposes: row `y` of the texture starts at
`y * rowPitch`; the bytes between the end of a row and the next row are indeterminate. -/
def mappedView (t : Texture2D) (rowPitch : Nat) : Mem :=
  fun a =>
    if a / rowPitch < t.height ∧ a % rowPitch < 4 * t.width then
      t.texels (a / rowPitch) (a % rowPitch)
    else none

/-! ## Resource release -/

/-- Source line 144 (and 191): `if (inputTextureSRV) { Release(); inputTextureSRV = nullptr; }`. -/
def releaseInputTextureSRV (s : Renderer) : Renderer :=
  match s.inputTextureSRV with
  | some v => { emit (.release v.handle) s with inputTextureSRV := none }
  | none => s

/-- Source line 145 (and 190), for `outputTextureUAV`. -/
def releaseOutputTextureUAV (s : Renderer) : Renderer :=
  match s.outputTextureUAV with
  | some v => { emit (.release v.handle) s with outputTextureUAV := none }
  | none => s

/-- Source line 146 (and 193), for `inputTexture`. -/
def releaseInputTexture (s : Renderer) : Renderer :=
  match s.inputTexture with
  | some t => { emit (.release t.handle) s with inputTexture := none }
  | none => s

/-- Source line 147 (and 192), for `outputTexture`. -/
def releaseOutputTexture (s : Renderer) : Renderer :=
  match s.outputTexture with
  | some t => { emit (.release t.handle) s with outputTexture := none }
  | none => s

/-- Source line 194, for `computeShader`. -/
def releaseComputeShader (s : Renderer) : Renderer :=
  match s.computeShader with
  | some h => { emit (.release h) s with computeShader := none }
  | none => s

/-- Source line 195, for `constBuffer`. -/
def releaseConstBuffer (s : Renderer) : Renderer :=
  match s.constBuffer with
  | some b => { emit (.release b.handle) s with constBuffer := none }
  | none => s

/-- Source line 196, for `context`. -/
def releaseContext (s : Renderer) : Renderer :=
  match s.context with
  | some h => { emit (.release h) s with context := none }
  | none => s

/-- Source line 197, for `device`. -/
def releaseDevice (s : Renderer) : Renderer :=
  match s.device with
  | some h => { emit (.release h) s with device := none }
  | none => s

/-- Function `cleanupResources` (lines 189-198). -/
def cleanupResources (s : Renderer) : Renderer :=
  let s := releaseOutputTextureUAV s
  let s := releaseInputTextureSRV s
  let s := releaseOutputTexture s
  let s := releaseInputTexture s
  let s := releaseComputeShader s
  let s := releaseConstBuffer s
  let s := releaseContext s
  releaseDevice s

/-! ## Construction and destruction -/

/-- Function `initializeDevice` (lines 32-55): one call yields the device and its context. -/
def initializeDevice (ok : Bool) (s : Renderer) : Except String Unit × Renderer :=
  if ok then
    (.ok (),
      { s with
        device := some s.nextHandle
        context := some (s.nextHandle + 1)
        nextHandle := s.nextHandle + 2
        log := s.log ++ [.acquire s.nextHandle, .acquire (s.nextHandle + 1)] })
  else (.error "Failed to create DirectX 11 device", emit .createFailed s)

/-- Function `createConstantBuffer` (lines 57-71): the buffer starts with the current
`params` as its initial data. -/
def createConstantBuffer (ok : Bool) (s : Renderer) : Except String Unit × Renderer :=
  if ok then
    (.ok (),
      { s with
        constBuffer := some ⟨s.nextHandle, s.params⟩
        nextHandle := s.nextHandle + 1
        log := s.log ++ [.acquire s.nextHandle] })
  else (.error "Failed to create constant buffer", emit .createFailed s)

/-- Function `createShaders` (lines 73-140): compile, then create the compute shader; the
shader blob is released before the result of the creation is examined. -/
def createShaders (c : CompileResult) (ok : Bool) (s : Renderer) :
    Except String Unit × Renderer :=
  match c with
  | .failed diagnostic hasShaderBlob =>
    let s := emit (.compile false) s
    let errorMsg := "Shader compilation failed: " ++ diagnostic.getD ""
    let s := if diagnostic.isSome then emit (.blobRelease .errorBlob) s else s
    let s := if hasShaderBlob then emit (.blobRelease .shaderBlob) s else s
    (.error errorMsg, s)
  | .ok _ =>
    let s := emit (.compile true) s
    if ok then
      let s :=
        { s with
          computeShader := some s.nextHandle
          nextHandle := s.nextHandle + 1
          log := s.log ++ [.acquire s.nextHandle] }
      (.ok (), emit (.blobRelease .shaderBlob) s)
    else
      (.error "Failed to create compute shader",
        emit (.blobRelease .shaderBlob) (emit .createFailed s))

/-- Sequencing of two statements either of which may throw. -/
def andThen (r : Except String Unit × Renderer)
    (f : Renderer → Except String Unit × Renderer) : Except String Unit × Renderer :=
  match r with
  | (.ok _, s) => f s
  | (.error e, s) => (.error e, s)

/-- The `try` block of the constructor (lines 17-19), up to `isInitialized = true`. -/
def constructSteps (o : ConstructOracle) (s : Renderer) : Except String Unit × Renderer :=
  andThen (initializeDevice o.device s) fun s =>
    andThen (createConstantBuffer o.constBuffer s) fun s =>
      createShaders o.compile o.computeShader s

/-- The constructor (lines 15-26) run on the freshly initialised members. -/
def construct (o : ConstructOracle) : Renderer :=
  match constructSteps o {} with
  | (.ok _, s) => { s with status := { s.status with isInitialized := true } }
  | (.error e, s) => cleanupResources { s with status := { s.status with lastError := e } }

/-- The destructor (lines 28-30). -/
def destroy (s : Renderer) : Renderer := cleanupResources s

/-! ## Texture allocation -/

/-- The successful `CreateTexture2D` for the input texture (line 161): contents undefined. -/
def acquireInputTexture (width height : Nat) (s : Renderer) : Renderer :=
  { s with
    inputTexture := some ⟨s.nextHandle, width, height, fun _ _ => none⟩
    nextHandle := s.nextHandle + 1
    log := s.log ++ [.acquire s.nextHandle] }

/-- The successful `CreateShaderResourceView(inputTexture, ...)` (line 167). -/
def acquireInputTextureSRV (s : Renderer) : Renderer :=
  { s with
    inputTextureSRV := some ⟨s.nextHandle, (s.inputTexture.map (·.handle)).getD 0⟩
    nextHandle := s.nextHandle + 1
    log := s.log ++ [.acquire s.nextHandle] }

/-- The successful `CreateTexture2D` for the output texture (line 174). -/
def acquireOutputTexture (width height : Nat) (s : Renderer) : Renderer :=
  { s with
    outputTexture := some ⟨s.nextHandle, width, height, fun _ _ => none⟩
    nextHandle := s.nextHandle + 1
    log := s.log ++ [.acquire s.nextHandle] }

/-- The successful `CreateUnorderedAccessView(outputTexture, ...)` (line 180). -/
def acquireOutputTextureUAV (s : Renderer) : Renderer :=
  { s with
    outputTextureUAV := some ⟨s.nextHandle, (s.outputTexture.map (·.handle)).getD 0⟩
    nextHandle := s.nextHandle + 1
    log := s.log ++ [.acquire s.nextHandle] }

/-- Function `createTextures` (lines 142-187). -/
def createTextures (o : TextureOracle) (width height : Nat) (s : Renderer) :
    Except String Unit × Renderer :=
  let s := releaseInputTextureSRV s
  let s := releaseOutputTextureUAV s
  let s := releaseInputTexture s
  let s := releaseOutputTexture s
  if o.inputTexture = false then
    (.error "Failed to create input texture", emit .createFailed s)
  else
    let s := acquireInputTexture width height s
    if o.inputTextureSRV = false then
      (.error "Failed to create input texture view", emit .createFailed s)
    else
      let s := acquireInputTextureSRV s
      if o.outputTexture = false then
        (.error "Failed to create output texture", emit .createFailed s)
      else
        let s := acquireOutputTexture width height s
        if o.outputTextureUAV = false then
          (.error "Failed to create output texture UAV", emit .createFailed s)
        else
          let s := acquireOutputTextureUAV s
          (.ok (),
            { s with status := { s.status with textureWidth := width, textureHeight := height } })

/-! ## The per-frame protocol -/

/-- The size check of `processFrame` (lines 205-208). -/
def ensureSize (o : TextureOracle) (inputFrame : Mat) (s : Renderer) :
    Except String Unit × Renderer :=
  if inputFrame.cols ≠ s.status.textureWidth ∨ inputFrame.rows ≠ s.status.textureHeight then
    createTextures o inputFrame.cols inputFrame.rows s
  else (.ok (), s)

/-- The constant-buffer update (lines 210-216): when the map succeeds, `params` is copied into
the buffer and the buffer is unmapped; when it fails nothing else happens. -/
def uploadParams (ok : Bool) (s : Renderer) : Renderer :=
  let s := emit (.mapWrite (s.constBuffer.map (·.handle)) ok) s
  if ok then
    emit (.unmap (s.constBuffer.map (·.handle)))
      { s with constBuffer := s.constBuffer.map fun b => { b with contents := s.params } }
  else s

/-- The input upload (line 219): the whole input texture is filled from `inputFrame.data`
with `inputFrame.step[0]` as source row pitch. -/
def uploadInput (inputFrame : Mat) (s : Renderer) : Renderer :=
  match s.inputTexture with
  | some t =>
    emit (.updateSubresource (some t.handle) (uploadReads t inputFrame.step))
      { s with inputTexture := some (updateSubresource t inputFrame.data inputFrame.step) }
  | none => emit (.updateSubresource none []) s

/-- The binding of the pipeline and the dispatch (lines 221-230).  The kernel writes through
the output view and reads through the input view; an unbound input reads as zero. -/
def dispatchKernel (powf : ℚ → ℚ → ℚ) (inputFrame : Mat) (s : Renderer) : Renderer :=
  let s :=
    emit (.csBind s.computeShader (s.constBuffer.map (·.handle))
      (s.inputTextureSRV.map (·.handle)) (s.outputTextureUAV.map (·.handle))) s
  let s :=
    emit (.dispatch (dispatchArgs inputFrame).1 (dispatchArgs inputFrame).2.1
      (dispatchArgs inputFrame).2.2) s
  match s.outputTextureUAV, s.outputTexture with
  | some _, some out =>
    let p : ProcessingParams :=
      match s.constBuffer with
      | some b => b.contents
      | none => ⟨0, 0, 0, 0⟩
    let input : Option Texture2D :=
      match s.inputTextureSRV with
      | some _ => s.inputTexture
      | none => none
    { s with
      outputTexture :=
        some (runKernel powf p (dispatchArgs inputFrame).1 (dispatchArgs inputFrame).2.1
          input out) }
  | _, _ => s

/-- The two copies of lines 234-236, both with `outputTexture` as destination and
`inputTexture` as source. -/
def copyToOutput (inputFrame : Mat) (s : Renderer) : Renderer :=
  let s :=
    emit (.copySubresourceRegion (s.outputTexture.map (·.handle))
      (s.inputTexture.map (·.handle)) inputFrame.cols inputFrame.rows) s
  let s :=
    match s.outputTexture, s.inputTexture with
    | some d, some t =>
      { s with outputTexture := some (copySubresourceRegion d t inputFrame.cols inputFrame.rows) }
    | _, _ => s
  let s :=
    emit (.copyResource (s.outputTexture.map (·.handle)) (s.inputTexture.map (·.handle))) s
  match s.outputTexture, s.inputTexture with
  | some d, some t => { s with outputTexture := some (copyResource d t) }
  | _, _ => s

/-- The readback (lines 238-249): when the map of `outputTexture` succeeds with row pitch
`rowPitch`, the loop copies the mapped rows into `outputFrame` and the texture is unmapped;
when it fails `outputFrame` is left as `create` made it. -/
def readback (mapOutput : Option Nat) (outputFrame : Mat) (s : Renderer) : Mat × Renderer :=
  match mapOutput with
  | some rowPitch =>
    let s := emit (.mapRead (s.outputTexture.map (·.handle)) true) s
    let src : Mem :=
      match s.outputTexture with
      | some t => mappedView t rowPitch
      | none => fun _ => none
    ({ outputFrame with
        data :=
          readbackLoop outputFrame.cols rowPitch outputFrame.step src outputFrame.rows 0 0
            outputFrame.data },
      emit (.unmap (s.outputTexture.map (·.handle))) s)
  | none => (outputFrame, emit (.mapRead (s.outputTexture.map (·.handle)) false) s)

/-- Lines 210-249 of `processFrame`: everything after the size check. -/
def renderFrame (powf : ℚ → ℚ → ℚ) (o : FrameOracle) (inputFrame : Mat) (s : Renderer) :
    Mat × Renderer :=
  let s := uploadParams o.mapConstBuffer s
  let s := uploadInput inputFrame s
  let s := dispatchKernel powf inputFrame s
  let outputFrame := Mat.create inputFrame.rows inputFrame.cols
  let s := copyToOutput inputFrame s
  readback o.mapOutput outputFrame s

/-- Function `processFrame` (lines 200-250); the result is the `outputFrame` handed back on a
normal return, or the message of the exception thrown. -/
def processFrame (powf : ℚ → ℚ → ℚ) (o : FrameOracle) (inputFrame : Mat) (s : Renderer) :
    Except String Mat × Renderer :=
  if s.status.isInitialized = false then (.error "Renderer not initialized", s)
  else
    match ensureSize o.textures inputFrame s with
    | (.error e, s) => (.error e, s)
    | (.ok _, s) =>
      let r := renderFrame powf o inputFrame s
      (.ok r.1, r.2)

/-- Function `updateProcessingParams` (lines 252-254). -/
def updateProcessingParams (newParams : ProcessingParams) (s : Renderer) : Renderer :=
  { s with params := newParams }

/-- Function `getStatus` (lines 256-258). -/
def getStatus (s : Renderer) : RendererStatus := s.status

/-- The `process_frame` binding (python_bindings.cpp, lines 29-42): the array must have three
dimensions and three channels; its bytes are wrapped without copy in a `CV_8UC3` header. -/
def process_frame (powf : ℚ → ℚ → ℚ) (o : FrameOracle) (shape : List Nat) (bytes : List Nat)
    (s : Renderer) : Except String Mat × Renderer :=
  match shape with
  | [rows, cols, 3] => processFrame powf o (Mat.ofArray rows cols bytes) s
  | _ => (.error "Input must be a BGR image (height, width, 3)", s)

/-! ## Histories of calls -/

/-- One call of the public interface on a live renderer, with the outcomes of its fallible
runtime calls. -/
inductive Call where
  | processFrame (o : FrameOracle) (inputFrame : Mat)
  | updateProcessingParams (newParams : ProcessingParams)

/-- State of the renderer after one call (an exception leaves the state it was thrown in). -/
def Call.run (powf : ℚ → ℚ → ℚ) : Call → Renderer → Renderer
  | .processFrame o inputFrame, s => (dx11_renderer.processFrame powf o inputFrame s).2
  | .updateProcessingParams p, s => dx11_renderer.updateProcessingParams p s

/-- State of the renderer after a sequence of calls. -/
def runCalls (powf : ℚ → ℚ → ℚ) (calls : List Call) (s : Renderer) : Renderer :=
  calls.foldl (fun s c => c.run powf s) s

/-- A renderer state is reachable when some construction followed by some calls yields it. -/
def Reachable (powf : ℚ → ℚ → ℚ) (s : Renderer) : Prop :=
  ∃ (o : ConstructOracle) (calls : List Call), s = runCalls powf calls (construct o)

/-! ## Definitions used to state the properties -/

/-- The handles of the eight resource members that are not null, in declaration order. -/
def liveHandles (s : Renderer) : List Nat :=
  s.device.toList ++ s.context.toList ++ (s.constBuffer.map (·.handle)).toList ++
    s.computeShader.toList ++ (s.inputTextureSRV.map (·.handle)).toList ++
    (s.outputTextureUAV.map (·.handle)).toList ++ (s.inputTexture.map (·.handle)).toList ++
    (s.outputTexture.map (·.handle)).toList

/-- The handles of the two surfaces and two views that are not null, in the order
`createTextures` releases them. -/
def surfaceHandles (s : Renderer) : List Nat :=
  (s.inputTextureSRV.map (·.handle)).toList ++ (s.outputTextureUAV.map (·.handle)).toList ++
    (s.inputTexture.map (·.handle)).toList ++ (s.outputTexture.map (·.handle)).toList

/-- Every resource member is null. -/
def AllNull (s : Renderer) : Prop :=
  s.device = none ∧ s.context = none ∧ s.constBuffer = none ∧ s.computeShader = none ∧
    s.inputTextureSRV = none ∧ s.outputTextureUAV = none ∧ s.inputTexture = none ∧
    s.outputTexture = none

/-- Bookkeeping invariant of the log: the objects handed out so far are exactly those numbered
below `nextHandle`, each handed out once; and each of them is either still held by exactly one
member or released exactly once, never both. -/
def Balanced (s : Renderer) : Prop :=
  (∀ h, s.log.count (.acquire h) = if h < s.nextHandle then 1 else 0) ∧
  (∀ h, s.log.count (.release h) + (liveHandles s).count h = s.log.count (.acquire h))

/-- Whether a logged call creates or releases a resource. -/
def GpuOp.isLifecycle : GpuOp → Bool
  | .acquire _ => true
  | .createFailed => true
  | .release _ => true
  | _ => false

/-- The message of the first construction step the oracle makes fail, following the order
device, constant buffer, shader compilation, shader creation; `none` when none fails. -/
def ConstructOracle.failure (o : ConstructOracle) : Option String :=
  if o.device = false then some "Failed to create DirectX 11 device"
  else if o.constBuffer = false then some "Failed to create constant buffer"
  else
    match o.compile with
    | .failed diagnostic _ => some ("Shader compilation failed: " ++ diagnostic.getD "")
    | .ok _ =>
      if o.computeShader = false then some "Failed to create compute shader" else none

/-- The input surface, the output surface and both views exist, each view is on its surface,
and both surfaces are `width` by `height`. -/
def SurfacesMatch (s : Renderer) (width height : Nat) : Prop :=
  (∃ t, s.inputTexture = some t ∧ t.width = width ∧ t.height = height) ∧
  (∃ t, s.outputTexture = some t ∧ t.width = width ∧ t.height = height) ∧
  s.inputTextureSRV.isSome = true ∧ s.outputTextureUAV.isSome = true

/-- The step from `s` to `s2` creates and releases nothing: same handle counter, same handles
in the same members, same status and parameters, the same surfaces up to their contents, and
a log extended only by calls that neither create nor release. -/
def SameResources (s s2 : Renderer) : Prop :=
  s2.nextHandle = s.nextHandle ∧ liveHandles s2 = liveHandles s ∧
  surfaceHandles s2 = surfaceHandles s ∧ s2.status = s.status ∧ s2.params = s.params ∧
  (∃ ops, s2.log = s.log ++ ops ∧ ∀ op ∈ ops, op.isLifecycle = false) ∧
  (∀ w h, SurfacesMatch s2 w h ↔ SurfacesMatch s w h)

/-- A `cv::Mat(rows, cols, type, data)` header over tightly packed bytes with `elemSize`
bytes per pixel (`step = cols * elemSize`), as a caller of the C++ interface may pass. -/
def Mat.ofBytes (rows cols elemSize : Nat) (bytes : List Nat) : Mat :=
  { rows := rows, cols := cols, elemSize := elemSize, step := cols * elemSize,
    data := fun a => bytes[a]? }

/-- The surface-pair invariant as a property of the program: in every reachable, initialized
state, whenever the size check of `processFrame` lets the call go on, the two surfaces and
two views exist with the recorded size, which is the size of the frame. -/
def SurfacePairInvariant (powf : ℚ → ℚ → ℚ) : Prop :=
  ∀ (s : Renderer) (o : TextureOracle) (f : Mat) (s1 : Renderer),
    Reachable powf s → s.status.isInitialized = true → ensureSize o f s = (.ok (), s1) →
      SurfacesMatch s1 f.cols f.rows ∧ s1.status.textureWidth = f.cols ∧
        s1.status.textureHeight = f.rows

/-! # Theorems -/

/-! ## Thread-group counts (claim C7) -/

theorem threadGroups_eq (w : ℤ) (h0 : 0 ≤ w) (h : w + 7 < 2 ^ 31) :
    (threadGroups w : ℤ) = (w + 7) / 8 := by
  have h1 : wrapInt32 (w + 7) = w + 7 := by
    unfold wrapInt32
    omega
  have h2 : Int.tdiv (w + 7) 8 = (w + 7) / 8 := by
    rw [Int.tdiv_eq_ediv] <;> omega
  unfold threadGroups toUINT
  rw [h1, h2]
  have h3 : 0 ≤ (w + 7) / 8 := by omega
  have h4 : (w + 7) / 8 < 2 ^ 32 := by omega
  rw [Int.emod_eq_of_lt h3 h4]
  exact Int.toNat_of_nonneg h3

theorem threadGroups_ceil (w : ℤ) (h0 : 0 ≤ w) (h : w + 7 < 2 ^ 31) :
    (threadGroups w : ℤ) = ⌈(w : ℚ) / 8⌉ := by
  rw [threadGroups_eq w h0 h]
  symm
  rw [Int.ceil_eq_iff]
  have hq : ((8 : ℤ) : ℚ) = 8 := by norm_num
  constructor
  · have h1 : 8 * ((w + 7) / 8 - 1) < w := by omega
    have h2 : ((8 * ((w + 7) / 8 - 1) : ℤ) : ℚ) < (w : ℚ) := by exact_mod_cast h1
    push_cast at h2 ⊢
    linarith
  · have h1 : w ≤ 8 * ((w + 7) / 8) := by omega
    have h2 : (w : ℚ) ≤ ((8 * ((w + 7) / 8) : ℤ) : ℚ) := by exact_mod_cast h1
    push_cast at h2 ⊢
    linarith

theorem dispatchKernel_log (powf : ℚ → ℚ → ℚ) (f : Mat) (s : Renderer) :
    (dispatchKernel powf f s).log =
      s.log ++ [.csBind s.computeShader (s.constBuffer.map (·.handle))
        (s.inputTextureSRV.map (·.handle)) (s.outputTextureUAV.map (·.handle)),
        .dispatch (threadGroups f.cols) (threadGroups f.rows) 1] := by
  unfold dispatchKernel
  simp only [emit, dispatchArgs]
  split <;> simp

/-- C7: for a frame of width `w >= 0` and height `h >= 0` with `w + 7` and `h + 7`
representable as `int`, the counts `processFrame` passes to `Dispatch` are
`x = (w + 7) / 8 = ceil(w / 8)`, `y = (h + 7) / 8 = ceil(h / 8)` and `z = 1`; so `8x >= w`,
`8y >= h`, every pixel `(i, j)` of the frame lies in a dispatched 8 x 8 group, and `x`, `y`
are the least such counts. -/
theorem dispatch_counts_cover (w h : ℤ) (hw0 : 0 ≤ w) (hh0 : 0 ≤ h)
    (hw : w + 7 < 2 ^ 31) (hh : h + 7 < 2 ^ 31) :
    ((threadGroups w : ℤ) = (w + 7) / 8 ∧ (threadGroups w : ℤ) = ⌈(w : ℚ) / 8⌉) ∧
    ((threadGroups h : ℤ) = (h + 7) / 8 ∧ (threadGroups h : ℤ) = ⌈(h : ℚ) / 8⌉) ∧
    (w ≤ 8 * (threadGroups w : ℤ) ∧ h ≤ 8 * (threadGroups h : ℤ)) ∧
    (∀ i j : ℤ, 0 ≤ i → i < w → 0 ≤ j → j < h →
      i / 8 < (threadGroups w : ℤ) ∧ j / 8 < (threadGroups h : ℤ)) ∧
    (0 < w → 8 * ((threadGroups w : ℤ) - 1) < w) ∧
    (0 < h → 8 * ((threadGroups h : ℤ) - 1) < h) ∧
    (∀ (powf : ℚ → ℚ → ℚ) (f : Mat) (s : Renderer), (f.cols : ℤ) = w → (f.rows : ℤ) = h →
      dispatchArgs f = (threadGroups w, threadGroups h, 1) ∧
      GpuOp.dispatch (threadGroups w) (threadGroups h) 1 ∈ (dispatchKernel powf f s).log) := by
  have ex := threadGroups_eq w hw0 hw
  have ey := threadGroups_eq h hh0 hh
  refine ⟨⟨ex, threadGroups_ceil w hw0 hw⟩, ⟨ey, threadGroups_ceil h hh0 hh⟩, ⟨?_, ?_⟩, ?_,
    ?_, ?_, ?_⟩
  · omega
  · omega
  · intro i j hi0 hi hj0 hj
    constructor <;> omega
  · intro _
    omega
  · intro _
    omega
  · intro powf f s hc hr
    subst hc hr
    refine ⟨rfl, ?_⟩
    rw [dispatchKernel_log]
    simp

theorem dispatch_counts_cover_witness :
    ((threadGroups 13 : ℤ) = (13 + 7) / 8 ∧ (threadGroups 13 : ℤ) = ⌈((13 : ℤ) : ℚ) / 8⌉) ∧
    (13 : ℤ) ≤ 8 * (threadGroups 13 : ℤ) ∧ (8 : ℤ) ≤ 8 * (threadGroups 8 : ℤ) :=
  have h := dispatch_counts_cover 13 8 (by decide) (by decide) (by decide) (by decide)
  ⟨h.1, h.2.2.1⟩

/-! ## The readback loop (claim C8) -/

theorem readbackLoop_outside (cols P S : Nat) (src : Mem) (n : Nat) :
    ∀ (sOff dOff : Nat) (dst : Mem) (a : Nat),
      (∀ i, i < n → ¬(dOff + i * S ≤ a ∧ a < dOff + i * S + 4 * cols)) →
      readbackLoop cols P S src n sOff dOff dst a = dst a := by
  induction n with
  | zero => intro sOff dOff dst a _; rfl
  | succ n ih =>
    intro sOff dOff dst a h
    rw [readbackLoop, ih]
    · have h0 := h 0 (Nat.succ_pos n)
      unfold memcpy
      rw [if_neg]
      intro hc
      apply h0
      omega
    · intro i hi hc
      apply h (i + 1) (Nat.succ_lt_succ hi)
      rw [Nat.add_mul]
      omega

theorem readbackLoop_inside (cols P S : Nat) (hS : 4 * cols ≤ S) (src : Mem) (n : Nat) :
    ∀ (sOff dOff : Nat) (dst : Mem) (i k : Nat), i < n → k < 4 * cols →
      readbackLoop cols P S src n sOff dOff dst (dOff + i * S + k) = src (sOff + i * P + k) := by
  induction n with
  | zero => intro _ _ _ i _ hi; exact absurd hi (Nat.not_lt_zero i)
  | succ n ih =>
    intro sOff dOff dst i k hi hk
    rw [readbackLoop]
    cases i with
    | zero =>
      rw [readbackLoop_outside]
      · unfold memcpy
        rw [if_pos (by omega)]
        congr 1
        omega
      · intro j _ hc
        have := Nat.zero_le (j * S)
        omega
    | succ j =>
      have e1 : dOff + (j + 1) * S + k = dOff + S + j * S + k := by rw [Nat.add_mul]; omega
      have e2 : sOff + (j + 1) * P + k = sOff + P + j * P + k := by rw [Nat.add_mul]; omega
      rw [e1, e2]
      exact ih (sOff + P) (dOff + S) _ j k (Nat.lt_of_succ_lt_succ hi) hk

theorem mappedView_row (t : Texture2D) (P i k : Nat) (hP : 4 * t.width ≤ P)
    (hi : i < t.height) (hk : k < 4 * t.width) : mappedView t P (i * P + k) = t.texels i k := by
  have hkP : k < P := by omega
  have hpos : 0 < P := by omega
  have e1 : (i * P + k) / P = i := by
    rw [Nat.add_comm, Nat.add_mul_div_right _ _ hpos, Nat.div_eq_of_lt hkP, Nat.zero_add]
  have e2 : (i * P + k) % P = k := by
    rw [Nat.add_comm, Nat.add_mul_mod_self_right, Nat.mod_eq_of_lt hkP]
  unfold mappedView
  rw [e1, e2, if_pos ⟨hi, hk⟩]

/-- C8: with source row pitch `P >= 4 * cols` and destination stride `S >= 4 * cols`, the
readback loop leaves `out[i * S + k] = mapped[i * P + k]` for every `i < rows` and
`k < 4 * cols`; it writes no destination byte outside the row windows
`[i * S, i * S + 4 * cols)`; its result depends on no source byte outside the windows
`[i * P, i * P + 4 * cols)`; and for a mapped texture of the frame size the result is the
texture rows whatever the pitch, so it is the same for any two pitches. -/
theorem readback_reconciles_pitch (rows cols P S : Nat) (hP : 4 * cols ≤ P)
    (hS : 4 * cols ≤ S) (src dst : Mem) :
    (∀ i k, i < rows → k < 4 * cols →
      readbackLoop cols P S src rows 0 0 dst (i * S + k) = src (i * P + k)) ∧
    (∀ a, (∀ i, i < rows → ¬(i * S ≤ a ∧ a < i * S + 4 * cols)) →
      readbackLoop cols P S src rows 0 0 dst a = dst a) ∧
    (∀ src2 : Mem, (∀ i k, i < rows → k < 4 * cols → src2 (i * P + k) = src (i * P + k)) →
      readbackLoop cols P S src2 rows 0 0 dst = readbackLoop cols P S src rows 0 0 dst) ∧
    (∀ (t : Texture2D) (i k : Nat), t.width = cols → t.height = rows → i < rows →
      k < 4 * cols →
      readbackLoop cols P S (mappedView t P) rows 0 0 dst (i * S + k) = t.texels i k) ∧
    (∀ (t : Texture2D) (P2 : Nat), t.width = cols → t.height = rows → 4 * cols ≤ P2 →
      readbackLoop cols P2 S (mappedView t P2) rows 0 0 dst =
        readbackLoop cols P S (mappedView t P) rows 0 0 dst) := by
  have inside : ∀ (Q : Nat) (m : Mem) (i k : Nat), i < rows → k < 4 * cols →
      readbackLoop cols Q S m rows 0 0 dst (i * S + k) = m (i * Q + k) := by
    intro Q m i k hi hk
    have h := readbackLoop_inside cols Q S hS m rows 0 0 dst i k hi hk
    simpa using h
  have outside : ∀ (Q : Nat) (m : Mem) (a : Nat),
      (∀ i, i < rows → ¬(i * S ≤ a ∧ a < i * S + 4 * cols)) →
      readbackLoop cols Q S m rows 0 0 dst a = dst a := by
    intro Q m a h
    apply readbackLoop_outside
    intro i hi
    simpa using h i hi
  have agree : ∀ (Q1 Q2 : Nat) (m1 m2 : Mem),
      (∀ i k, i < rows → k < 4 * cols → m1 (i * Q1 + k) = m2 (i * Q2 + k)) →
      readbackLoop cols Q1 S m1 rows 0 0 dst = readbackLoop cols Q2 S m2 rows 0 0 dst := by
    intro Q1 Q2 m1 m2 h
    funext a
    by_cases hex : ∃ i, i < rows ∧ (i * S ≤ a ∧ a < i * S + 4 * cols)
    · obtain ⟨i, hi, h1, h2⟩ := hex
      obtain ⟨k, rfl⟩ := Nat.exists_eq_add_of_le h1
      have hk : k < 4 * cols := by omega
      rw [inside Q1 m1 i k hi hk, inside Q2 m2 i k hi hk, h i k hi hk]
    · have hno : ∀ i, i < rows → ¬(i * S ≤ a ∧ a < i * S + 4 * cols) :=
        fun i hi hc => hex ⟨i, hi, hc⟩
      rw [outside Q1 m1 a hno, outside Q2 m2 a hno]
  refine ⟨inside P src, outside P src, fun src2 h => agree P P src2 src h, ?_, ?_⟩
  · intro t i k hw hh hi hk
    rw [inside P _ i k hi hk]
    exact mappedView_row t P i k (by omega) (by omega) (by omega)
  · intro t P2 hw hh hP2
    apply agree
    intro i k hi hk
    rw [mappedView_row t P2 i k (by omega) (by omega) (by omega),
      mappedView_row t P i k (by omega) (by omega) (by omega)]

theorem readback_reconciles_pitch_witness :
    readbackLoop 1 8 4 (fun a => some a) 2 0 0 (fun _ => none) (1 * 4 + 3) = some (1 * 8 + 3) :=
  (readback_reconciles_pitch 2 1 8 4 (by decide) (by decide) (fun a => some a)
    (fun _ => none)).1 1 3 (by decide) (by decide)

/-! ## The uninitialised renderer (claim C1) -/

/-- C1: on a renderer whose status has `isInitialized = false`, `processFrame` fails with
"Renderer not initialized" for every input image and every outcome the runtime could give,
appends no runtime call to the log, and returns the renderer state it was given: status
(with `isInitialized`, the recorded size and `lastError`), parameters and every handle. -/
theorem processFrame_uninitialized (powf : ℚ → ℚ → ℚ) (o : FrameOracle) (inputFrame : Mat)
    (s : Renderer) (h : s.status.isInitialized = false) :
    processFrame powf o inputFrame s = (.error "Renderer not initialized", s) ∧
    (processFrame powf o inputFrame s).2.log = s.log ∧
    (processFrame powf o inputFrame s).2.status = s.status ∧
    (processFrame powf o inputFrame s).2.params = s.params ∧
    liveHandles (processFrame powf o inputFrame s).2 = liveHandles s := by
  have e : processFrame powf o inputFrame s = (.error "Renderer not initialized", s) := by
    unfold processFrame
    rw [if_pos h]
  rw [e]
  exact ⟨rfl, rfl, rfl, rfl, rfl⟩

theorem processFrame_uninitialized_witness :
    (construct ⟨false, true, .ok none, true⟩).status.isInitialized = false ∧
    (processFrame (fun x _ => x) ⟨⟨true, true, true, true⟩, true, some 16⟩
      (Mat.ofArray 1 1 [10, 20, 30]) (construct ⟨false, true, .ok none, true⟩)).2.status.lastError
      = "Failed to create DirectX 11 device" :=
  ⟨by decide,
    ((processFrame_uninitialized (fun x _ => x) ⟨⟨true, true, true, true⟩, true, some 16⟩
      (Mat.ofArray 1 1 [10, 20, 30]) (construct ⟨false, true, .ok none, true⟩)
      (by decide)).2.2.1 ▸ (by decide :
        (construct ⟨false, true, .ok none, true⟩).status.lastError
          = "Failed to create DirectX 11 device"))⟩

/-! ## Construction (claim C2) -/

theorem shader_message_ne_empty (d : Option String) :
    "Shader compilation failed: " ++ d.getD "" ≠ "" := by
  intro h
  have hl := congrArg String.length h
  rw [String.length_append] at hl
  have h27 : "Shader compilation failed: ".length = 27 := by decide
  have h0 : "".length = 0 := by decide
  omega

theorem failure_message_ne_empty (o : ConstructOracle) (msg : String)
    (h : o.failure = some msg) : msg ≠ "" := by
  rcases o with ⟨d, b, c, cs⟩
  unfold ConstructOracle.failure at h
  cases d <;> cases b <;> cases c <;> cases cs <;> simp at h <;> subst h <;>
    first
    | exact shader_message_ne_empty _
    | decide

theorem construct_status (o : ConstructOracle) :
    (o.failure = none →
      (construct o).status.isInitialized = true ∧ (construct o).status.lastError = "") ∧
    (∀ msg, o.failure = some msg →
      (construct o).status.isInitialized = false ∧ (construct o).status.lastError = msg) := by
  rcases o with ⟨d, b, c, cs⟩
  rcases c with w | ⟨dg, hb⟩
  · cases d <;> cases b <;> cases cs <;>
      simp [ConstructOracle.failure, construct, constructSteps, andThen, initializeDevice,
        createConstantBuffer, createShaders, cleanupResources, releaseOutputTextureUAV,
        releaseInputTextureSRV, releaseOutputTexture, releaseInputTexture,
        releaseComputeShader, releaseConstBuffer, releaseContext, releaseDevice, emit]
  · cases d <;> cases b <;> cases cs <;> cases dg <;> cases hb <;>
      simp [ConstructOracle.failure, construct, constructSteps, andThen, initializeDevice,
        createConstantBuffer, createShaders, cleanupResources, releaseOutputTextureUAV,
        releaseInputTextureSRV, releaseOutputTexture, releaseInputTexture,
        releaseComputeShader, releaseConstBuffer, releaseContext, releaseDevice, emit]

theorem construct_log (o : ConstructOracle) :
    (o.device = false → (construct o).log = [.createFailed]) ∧
    (o.device = true → o.constBuffer = false →
      (construct o).log = [.acquire 0, .acquire 1, .createFailed, .release 1, .release 0]) ∧
    (∀ diagnostic hasBlob, o.device = true → o.constBuffer = true →
      o.compile = .failed diagnostic hasBlob →
      (construct o).log =
        [.acquire 0, .acquire 1, .acquire 2, .compile false] ++
          (if diagnostic.isSome then [.blobRelease .errorBlob] else []) ++
          (if hasBlob then [.blobRelease .shaderBlob] else []) ++
          [.release 2, .release 1, .release 0]) := by
  rcases o with ⟨d, b, c, cs⟩
  refine ⟨?_, ?_, ?_⟩
  · intro h
    simp only at h
    subst h
    rfl
  · intro h1 h2
    simp only at h1 h2
    subst h1 h2
    rfl
  · intro diagnostic hasBlob h1 h2 h3
    simp only at h1 h2 h3
    subst h1 h2 h3
    cases diagnostic <;> cases hasBlob <;> rfl

/-- C2: construction is a total function of the outcomes of its steps, so it never fails
outward.  When no step fails the status has `isInitialized = true` and an empty `lastError`.
When a step fails, `isInitialized = false`, `lastError` is exactly the message of the first
failing step, which is not empty, and the later steps are not run (the log holds no call of
theirs).  Hence `isInitialized` is true if and only if `lastError` is empty. -/
theorem construct_never_throws (o : ConstructOracle) :
    (o.failure = none →
      (construct o).status.isInitialized = true ∧ (construct o).status.lastError = "") ∧
    (∀ msg, o.failure = some msg →
      (construct o).status.isInitialized = false ∧ (construct o).status.lastError = msg ∧
        msg ≠ "") ∧
    ((construct o).status.isInitialized = true ↔ (construct o).status.lastError = "") ∧
    (o.device = false → (construct o).log = [.createFailed]) ∧
    (o.device = true → o.constBuffer = false →
      (construct o).log = [.acquire 0, .acquire 1, .createFailed, .release 1, .release 0]) ∧
    (∀ diagnostic hasBlob, o.device = true → o.constBuffer = true →
      o.compile = .failed diagnostic hasBlob →
      (construct o).log =
        [.acquire 0, .acquire 1, .acquire 2, .compile false] ++
          (if diagnostic.isSome then [.blobRelease .errorBlob] else []) ++
          (if hasBlob then [.blobRelease .shaderBlob] else []) ++
          [.release 2, .release 1, .release 0]) := by
  have hs := construct_status o
  have hl := construct_log o
  refine ⟨hs.1, fun msg h => ⟨(hs.2 msg h).1, (hs.2 msg h).2, failure_message_ne_empty o msg h⟩,
    ?_, hl.1, hl.2.1, hl.2.2⟩
  cases hf : o.failure with
  | none =>
    have := hs.1 hf
    simp [this.1, this.2]
  | some msg =>
    have h1 := hs.2 msg hf
    have h2 := failure_message_ne_empty o msg hf
    simp [h1.1, h1.2, h2]

theorem construct_never_throws_witness :
    (construct ⟨true, true, .ok none, true⟩).status.isInitialized = true ∧
    (construct ⟨true, false, .ok none, true⟩).status.lastError
      = "Failed to create constant buffer" ∧
    (construct ⟨true, false, .ok none, true⟩).log
      = [.acquire 0, .acquire 1, .createFailed, .release 1, .release 0] :=
  ⟨((construct_never_throws ⟨true, true, .ok none, true⟩).1 (by decide)).1,
    ((construct_never_throws ⟨true, false, .ok none, true⟩).2.1 _ (by decide)).2.1,
    (construct_never_throws ⟨true, false, .ok none, true⟩).2.2.2.2.1 (by decide) (by decide)⟩

/-! ## Handle bookkeeping (claims C3 and C9) -/

theorem balanced_of_release (s s2 : Renderer) (x : Nat)
    (hlog : s2.log = s.log ++ [.release x]) (hnext : s2.nextHandle = s.nextHandle)
    (hlive : ∀ h, (liveHandles s2).count h + (if h = x then 1 else 0) = (liveHandles s).count h)
    (hb : Balanced s) : Balanced s2 := by
  refine ⟨fun h => ?_, fun h => ?_⟩
  · have := hb.1 h
    rw [hlog, hnext]
    simpa [List.count_append, List.count_cons] using this
  · have h1 := hb.2 h
    have h2 := hlive h
    rw [hlog]
    simp only [List.count_append, List.count_cons, List.count_nil, beq_iff_eq,
      GpuOp.release.injEq]
    simp only [reduceCtorEq, if_false] at *
    by_cases hx : h = x
    · subst hx
      simp at h2 ⊢
      omega
    · have hx2 : ¬ x = h := fun e => hx e.symm
      simp [hx, hx2] at h2 ⊢
      omega

theorem balanced_of_acquire (s s2 : Renderer)
    (hlog : s2.log = s.log ++ [.acquire s.nextHandle])
    (hnext : s2.nextHandle = s.nextHandle + 1)
    (hlive : ∀ h, (liveHandles s2).count h =
      (liveHandles s).count h + (if h = s.nextHandle then 1 else 0))
    (hb : Balanced s) : Balanced s2 := by
  refine ⟨fun h => ?_, fun h => ?_⟩
  · have := hb.1 h
    rw [hlog, hnext]
    simp only [List.count_append, List.count_cons, List.count_nil, beq_iff_eq,
      GpuOp.acquire.injEq]
    by_cases hx : h = s.nextHandle
    · subst hx
      simp at this ⊢
      omega
    · have hx2 : ¬ s.nextHandle = h := fun e => hx e.symm
      simp only [hx2, if_false]
      split at this <;> split <;> omega
  · have h1 := hb.2 h
    have h2 := hlive h
    have h3 := hb.1 h
    rw [hlog, h2]
    simp only [List.count_append, List.count_cons, List.count_nil, beq_iff_eq,
      GpuOp.acquire.injEq, reduceCtorEq, if_false]
    by_cases hx : h = s.nextHandle
    · subst hx
      simp
      omega
    · have hx2 : ¬ s.nextHandle = h := fun e => hx e.symm
      simp [hx, hx2]
      omega

theorem balanced_of_other (s s2 : Renderer) (ops : List GpuOp)
    (hlog : s2.log = s.log ++ ops)
    (hops : ∀ op ∈ ops, (∀ h, op ≠ .acquire h) ∧ (∀ h, op ≠ .release h))
    (hnext : s2.nextHandle = s.nextHandle) (hlive : liveHandles s2 = liveHandles s)
    (hb : Balanced s) : Balanced s2 := by
  have ha : ∀ h, ops.count (.acquire h) = 0 := fun h =>
    List.count_eq_zero.mpr fun hm => (hops _ hm).1 h rfl
  have hr : ∀ h, ops.count (.release h) = 0 := fun h =>
    List.count_eq_zero.mpr fun hm => (hops _ hm).2 h rfl
  refine ⟨fun h => ?_, fun h => ?_⟩
  · rw [hlog, hnext, List.count_append, ha, Nat.add_zero]
    exact hb.1 h
  · rw [hlog, hlive, List.count_append, List.count_append, ha, hr, Nat.add_zero, Nat.add_zero]
    exact hb.2 h

theorem balanced_emit (op : GpuOp) (s : Renderer) (h1 : ∀ h, op ≠ .acquire h)
    (h2 : ∀ h, op ≠ .release h) (hb : Balanced s) : Balanced (emit op s) := by
  refine balanced_of_other s _ [op] rfl ?_ rfl rfl hb
  intro o ho
  simp only [List.mem_singleton] at ho
  subst ho
  exact ⟨h1, h2⟩

theorem balanced_releaseOutputTextureUAV (s : Renderer) (hb : Balanced s) :
    Balanced (releaseOutputTextureUAV s) := by
  unfold releaseOutputTextureUAV
  cases hf : s.outputTextureUAV with
  | none => exact hb
  | some v =>
    refine balanced_of_release s _ v.handle rfl rfl ?_ hb
    intro h
    by_cases hx : h = v.handle
    · simp [liveHandles, emit, hf, List.count_append, List.count_cons, hx]
      try omega
    · have hx2 : ¬ v.handle = h := fun e => hx e.symm
      simp [liveHandles, emit, hf, List.count_append, List.count_cons, hx, hx2]
      try omega

theorem balanced_releaseInputTextureSRV (s : Renderer) (hb : Balanced s) :
    Balanced (releaseInputTextureSRV s) := by
  unfold releaseInputTextureSRV
  cases hf : s.inputTextureSRV with
  | none => exact hb
  | some v =>
    refine balanced_of_release s _ v.handle rfl rfl ?_ hb
    intro h
    by_cases hx : h = v.handle
    · simp [liveHandles, emit, hf, List.count_append, List.count_cons, hx]
      try omega
    · have hx2 : ¬ v.handle = h := fun e => hx e.symm
      simp [liveHandles, emit, hf, List.count_append, List.count_cons, hx, hx2]
      try omega

theorem balanced_releaseOutputTexture (s : Renderer) (hb : Balanced s) :
    Balanced (releaseOutputTexture s) := by
  unfold releaseOutputTexture
  cases hf : s.outputTexture with
  | none => exact hb
  | some v =>
    refine balanced_of_release s _ v.handle rfl rfl ?_ hb
    intro h
    by_cases hx : h = v.handle
    · simp [liveHandles, emit, hf, List.count_append, List.count_cons, hx]
      try omega
    · have hx2 : ¬ v.handle = h := fun e => hx e.symm
      simp [liveHandles, emit, hf, List.count_append, List.count_cons, hx, hx2]
      try omega

theorem balanced_releaseInputTexture (s : Renderer) (hb : Balanced s) :
    Balanced (releaseInputTexture s) := by
  unfold releaseInputTexture
  cases hf : s.inputTexture with
  | none => exact hb
  | some v =>
    refine balanced_of_release s _ v.handle rfl rfl ?_ hb
    intro h
    by_cases hx : h = v.handle
    · simp [liveHandles, emit, hf, List.count_append, List.count_cons, hx]
      try omega
    · have hx2 : ¬ v.handle = h := fun e => hx e.symm
      simp [liveHandles, emit, hf, List.count_append, List.count_cons, hx, hx2]
      try omega

theorem balanced_releaseComputeShader (s : Renderer) (hb : Balanced s) :
    Balanced (releaseComputeShader s) := by
  unfold releaseComputeShader
  cases hf : s.computeShader with
  | none => exact hb
  | some v =>
    refine balanced_of_release s _ v rfl rfl ?_ hb
    intro h
    by_cases hx : h = v
    · simp [liveHandles, emit, hf, List.count_append, List.count_cons, hx]
      try omega
    · have hx2 : ¬ v = h := fun e => hx e.symm
      simp [liveHandles, emit, hf, List.count_append, List.count_cons, hx, hx2]
      try omega

theorem balanced_releaseConstBuffer (s : Renderer) (hb : Balanced s) :
    Balanced (releaseConstBuffer s) := by
  unfold releaseConstBuffer
  cases hf : s.constBuffer with
  | none => exact hb
  | some v =>
    refine balanced_of_release s _ v.handle rfl rfl ?_ hb
    intro h
    by_cases hx : h = v.handle
    · simp [liveHandles, emit, hf, List.count_append, List.count_cons, hx]
      try omega
    · have hx2 : ¬ v.handle = h := fun e => hx e.symm
      simp [liveHandles, emit, hf, List.count_append, List.count_cons, hx, hx2]
      try omega

theorem balanced_releaseContext (s : Renderer) (hb : Balanced s) :
    Balanced (releaseContext s) := by
  unfold releaseContext
  cases hf : s.context with
  | none => exact hb
  | some v =>
    refine balanced_of_release s _ v rfl rfl ?_ hb
    intro h
    by_cases hx : h = v
    · simp [liveHandles, emit, hf, List.count_append, List.count_cons, hx]
      try omega
    · have hx2 : ¬ v = h := fun e => hx e.symm
      simp [liveHandles, emit, hf, List.count_append, List.count_cons, hx, hx2]
      try omega

theorem balanced_releaseDevice (s : Renderer) (hb : Balanced s) :
    Balanced (releaseDevice s) := by
  unfold releaseDevice
  cases hf : s.device with
  | none => exact hb
  | some v =>
    refine balanced_of_release s _ v rfl rfl ?_ hb
    intro h
    by_cases hx : h = v
    · simp [liveHandles, emit, hf, List.count_append, List.count_cons, hx]
      try omega
    · have hx2 : ¬ v = h := fun e => hx e.symm
      simp [liveHandles, emit, hf, List.count_append, List.count_cons, hx, hx2]
      try omega

theorem balanced_acquireInputTexture (width height : Nat) (s : Renderer)
    (hn : s.inputTexture = none) (hb : Balanced s) :
    Balanced (acquireInputTexture width height s) := by
  refine balanced_of_acquire s _ rfl rfl ?_ hb
  intro h
  by_cases hx : h = s.nextHandle
  · simp [liveHandles, acquireInputTexture, hn, List.count_append, List.count_cons, hx]
    try omega
  · have hx2 : ¬ s.nextHandle = h := fun e => hx e.symm
    simp [liveHandles, acquireInputTexture, hn, List.count_append, List.count_cons, hx, hx2]
    try omega

theorem balanced_acquireInputTextureSRV (s : Renderer)
    (hn : s.inputTextureSRV = none) (hb : Balanced s) :
    Balanced (acquireInputTextureSRV s) := by
  refine balanced_of_acquire s _ rfl rfl ?_ hb
  intro h
  by_cases hx : h = s.nextHandle
  · simp [liveHandles, acquireInputTextureSRV, hn, List.count_append, List.count_cons, hx]
    try omega
  · have hx2 : ¬ s.nextHandle = h := fun e => hx e.symm
    simp [liveHandles, acquireInputTextureSRV, hn, List.count_append, List.count_cons, hx, hx2]
    try omega

theorem balanced_acquireOutputTexture (width height : Nat) (s : Renderer)
    (hn : s.outputTexture = none) (hb : Balanced s) :
    Balanced (acquireOutputTexture width height s) := by
  refine balanced_of_acquire s _ rfl rfl ?_ hb
  intro h
  by_cases hx : h = s.nextHandle
  · simp [liveHandles, acquireOutputTexture, hn, List.count_append, List.count_cons, hx]
    try omega
  · have hx2 : ¬ s.nextHandle = h := fun e => hx e.symm
    simp [liveHandles, acquireOutputTexture, hn, List.count_append, List.count_cons, hx, hx2]
    try omega

theorem balanced_acquireOutputTextureUAV (s : Renderer)
    (hn : s.outputTextureUAV = none) (hb : Balanced s) :
    Balanced (acquireOutputTextureUAV s) := by
  refine balanced_of_acquire s _ rfl rfl ?_ hb
  intro h
  by_cases hx : h = s.nextHandle
  · simp [liveHandles, acquireOutputTextureUAV, hn, List.count_append, List.count_cons, hx]
    try omega
  · have hx2 : ¬ s.nextHandle = h := fun e => hx e.symm
    simp [liveHandles, acquireOutputTextureUAV, hn, List.count_append, List.count_cons, hx, hx2]
    try omega

theorem balanced_cleanupResources (s : Renderer) (hb : Balanced s) :
    Balanced (cleanupResources s) := by
  unfold cleanupResources
  exact balanced_releaseDevice _ (balanced_releaseContext _ (balanced_releaseConstBuffer _
    (balanced_releaseComputeShader _ (balanced_releaseInputTexture _
      (balanced_releaseOutputTexture _ (balanced_releaseInputTextureSRV _
        (balanced_releaseOutputTextureUAV _ hb)))))))

theorem balanced_createShaders (c : CompileResult) (ok : Bool) (s : Renderer)
    (hn : s.computeShader = none) (hb : Balanced s) : Balanced (createShaders c ok s).2 := by
  cases c with
  | failed dg hasBlob =>
    simp only [createShaders]
    have h1 : Balanced (emit (.compile false) s) :=
      balanced_emit _ _ (fun _ => by simp) (fun _ => by simp) hb
    have h2 : Balanced (if dg.isSome = true then
        emit (.blobRelease .errorBlob) (emit (.compile false) s)
        else emit (.compile false) s) := by
      split
      · exact balanced_emit _ _ (fun _ => by simp) (fun _ => by simp) h1
      · exact h1
    split
    · exact balanced_emit _ _ (fun _ => by simp) (fun _ => by simp) h2
    · exact h2
  | ok w =>
    have h1 : Balanced (emit (.compile true) s) :=
      balanced_emit _ _ (fun _ => by simp) (fun _ => by simp) hb
    cases ok with
    | false =>
      simp only [createShaders, Bool.false_eq_true, if_false]
      exact balanced_emit _ _ (fun _ => by simp) (fun _ => by simp)
        (balanced_emit _ _ (fun _ => by simp) (fun _ => by simp) h1)
    | true =>
      simp only [createShaders, if_true]
      refine balanced_emit _ _ (fun _ => by simp) (fun _ => by simp) ?_
      refine balanced_of_acquire (emit (.compile true) s) _ rfl rfl ?_ h1
      intro h
      by_cases hx : h = s.nextHandle
      · simp [liveHandles, emit, hn, List.count_append, List.count_cons, hx]
        try omega
      · have hx2 : ¬ s.nextHandle = h := fun e => hx e.symm
        simp [liveHandles, emit, hn, List.count_append, List.count_cons, hx, hx2]
        try omega

theorem balanced_constructSteps (o : ConstructOracle) : Balanced (constructSteps o {}).2 := by
  rcases o with ⟨d, b, c, cs⟩
  cases d
  · constructor <;> intro h <;>
      simp [liveHandles, constructSteps, andThen, initializeDevice, emit, List.count_cons]
  · cases b
    · constructor <;> intro h <;>
        simp [liveHandles, constructSteps, andThen, initializeDevice, createConstantBuffer,
          emit, List.count_cons] <;> (try split_ifs) <;> omega
    · simp only [constructSteps, andThen, initializeDevice, createConstantBuffer, if_true]
      apply balanced_createShaders
      · rfl
      · constructor <;> intro h <;>
          simp [liveHandles, List.count_cons] <;> (try split_ifs) <;> omega

theorem balanced_construct (o : ConstructOracle) : Balanced (construct o) := by
  have hb := balanced_constructSteps o
  unfold construct
  generalize constructSteps o {} = p at hb
  rcases p with ⟨_ | _, s⟩
  · exact balanced_cleanupResources _ hb
  · exact hb

theorem releaseSurfaces_eq (s : Renderer) :
    releaseOutputTexture (releaseInputTexture (releaseOutputTextureUAV
      (releaseInputTextureSRV s))) =
    { s with
      inputTextureSRV := none
      outputTextureUAV := none
      inputTexture := none
      outputTexture := none
      log := s.log ++ (surfaceHandles s).map .release } := by
  rcases s with ⟨d, c, cb, cs, srv, uav, ti, tout, st, p, n, l⟩
  cases srv <;> cases uav <;> cases ti <;> cases tout <;>
    simp [releaseOutputTexture, releaseInputTexture, releaseOutputTextureUAV,
      releaseInputTextureSRV, emit, surfaceHandles]

theorem balanced_createTextures (o : TextureOracle) (width height : Nat) (s : Renderer)
    (hb : Balanced s) : Balanced (createTextures o width height s).2 := by
  have hb1 := balanced_releaseOutputTexture _ (balanced_releaseInputTexture _
    (balanced_releaseOutputTextureUAV _ (balanced_releaseInputTextureSRV _ hb)))
  simp only [createTextures]
  rw [releaseSurfaces_eq] at hb1 ⊢
  rcases o with ⟨a, b, c, d⟩
  cases a
  · exact balanced_emit _ _ (fun _ => by simp) (fun _ => by simp) hb1
  · have hb2 := balanced_acquireInputTexture width height _ rfl hb1
    cases b
    · exact balanced_emit _ _ (fun _ => by simp) (fun _ => by simp) hb2
    · have hb3 := balanced_acquireInputTextureSRV _ rfl hb2
      cases c
      · exact balanced_emit _ _ (fun _ => by simp) (fun _ => by simp) hb3
      · have hb4 := balanced_acquireOutputTexture width height _ rfl hb3
        cases d
        · exact balanced_emit _ _ (fun _ => by simp) (fun _ => by simp) hb4
        · exact balanced_acquireOutputTextureUAV _ rfl hb4

theorem createTextures_ok (width height : Nat) (s : Renderer) :
    createTextures ⟨true, true, true, true⟩ width height s =
      (.ok (),
        { s with
          inputTextureSRV := some ⟨s.nextHandle + 1, s.nextHandle⟩
          outputTextureUAV := some ⟨s.nextHandle + 3, s.nextHandle + 2⟩
          inputTexture := some ⟨s.nextHandle, width, height, fun _ _ => none⟩
          outputTexture := some ⟨s.nextHandle + 2, width, height, fun _ _ => none⟩
          status := { s.status with textureWidth := width, textureHeight := height }
          nextHandle := s.nextHandle + 4
          log := s.log ++ (surfaceHandles s).map .release ++
            [.acquire s.nextHandle, .acquire (s.nextHandle + 1), .acquire (s.nextHandle + 2),
              .acquire (s.nextHandle + 3)] }) := by
  simp only [createTextures]
  rw [releaseSurfaces_eq]
  simp [acquireInputTexture, acquireInputTextureSRV, acquireOutputTexture,
    acquireOutputTextureUAV]
/-! ## The frame protocol creates and releases nothing after the size check -/

@[simp]
theorem copyResource_handle (d t : Texture2D) : (copyResource d t).handle = d.handle := by
  unfold copyResource; split <;> rfl
@[simp]
theorem copyResource_width (d t : Texture2D) : (copyResource d t).width = d.width := by
  unfold copyResource; split <;> rfl
@[simp]
theorem copyResource_height (d t : Texture2D) : (copyResource d t).height = d.height := by
  unfold copyResource; split <;> rfl
@[simp]
theorem copySubresourceRegion_handle (d t : Texture2D) (w h : Nat) :
    (copySubresourceRegion d t w h).handle = d.handle := by
  unfold copySubresourceRegion; split <;> rfl
@[simp]
theorem copySubresourceRegion_width (d t : Texture2D) (w h : Nat) :
    (copySubresourceRegion d t w h).width = d.width := by
  unfold copySubresourceRegion; split <;> rfl
@[simp]
theorem copySubresourceRegion_height (d t : Texture2D) (w h : Nat) :
    (copySubresourceRegion d t w h).height = d.height := by
  unfold copySubresourceRegion; split <;> rfl

theorem sameResources_refl (s : Renderer) : SameResources s s :=
  ⟨rfl, rfl, rfl, rfl, rfl, ⟨[], by simp, by simp⟩, fun _ _ => Iff.rfl⟩

theorem sameResources_trans {a b c : Renderer} (h1 : SameResources a b)
    (h2 : SameResources b c) : SameResources a c := by
  obtain ⟨n1, l1, f1, st1, p1, ⟨ops1, e1, o1⟩, m1⟩ := h1
  obtain ⟨n2, l2, f2, st2, p2, ⟨ops2, e2, o2⟩, m2⟩ := h2
  refine ⟨n2.trans n1, l2.trans l1, f2.trans f1, st2.trans st1, p2.trans p1,
    ⟨ops1 ++ ops2, by rw [e2, e1, List.append_assoc], ?_⟩, fun w h => (m2 w h).trans (m1 w h)⟩
  intro op hop
  rcases List.mem_append.mp hop with h | h
  · exact o1 op h
  · exact o2 op h

theorem sameResources_uploadParams (ok : Bool) (s : Renderer) :
    SameResources s (uploadParams ok s) := by
  cases ok <;> cases hc : s.constBuffer <;>
    simp [SameResources, uploadParams, emit, liveHandles, surfaceHandles, SurfacesMatch, hc,
      GpuOp.isLifecycle]

theorem sameResources_uploadInput (f : Mat) (s : Renderer) :
    SameResources s (uploadInput f s) := by
  cases hc : s.inputTexture <;>
    simp [SameResources, uploadInput, emit, liveHandles, surfaceHandles, SurfacesMatch, hc,
      GpuOp.isLifecycle, updateSubresource]

theorem sameResources_dispatchKernel (powf : ℚ → ℚ → ℚ) (f : Mat) (s : Renderer) :
    SameResources s (dispatchKernel powf f s) := by
  cases hu : s.outputTextureUAV <;> cases ho : s.outputTexture <;>
    simp [SameResources, dispatchKernel, emit, liveHandles, surfaceHandles, SurfacesMatch, hu,
      ho, GpuOp.isLifecycle, runKernel]

theorem sameResources_copyToOutput (f : Mat) (s : Renderer) :
    SameResources s (copyToOutput f s) := by
  cases hi : s.inputTexture <;> cases ho : s.outputTexture <;>
    simp [SameResources, copyToOutput, emit, liveHandles, surfaceHandles, SurfacesMatch, hi,
      ho, GpuOp.isLifecycle]

theorem sameResources_readback (m : Option Nat) (out : Mat) (s : Renderer) :
    SameResources s (readback m out s).2 := by
  cases m <;>
    simp [SameResources, readback, emit, liveHandles, surfaceHandles, SurfacesMatch,
      GpuOp.isLifecycle]

theorem sameResources_renderFrame (powf : ℚ → ℚ → ℚ) (o : FrameOracle) (f : Mat)
    (s : Renderer) : SameResources s (renderFrame powf o f s).2 := by
  unfold renderFrame
  exact sameResources_trans (sameResources_uploadParams _ _)
    (sameResources_trans (sameResources_uploadInput _ _)
      (sameResources_trans (sameResources_dispatchKernel powf _ _)
        (sameResources_trans (sameResources_copyToOutput _ _) (sameResources_readback _ _ _))))
/-! ## Release exactly once (claim C9) -/

theorem cleanupResources_eq (s : Renderer) :
    cleanupResources s =
    { s with
      device := none, context := none, constBuffer := none, computeShader := none
      inputTextureSRV := none, outputTextureUAV := none, inputTexture := none
      outputTexture := none
      log := s.log ++
        ((s.outputTextureUAV.map (·.handle)).toList ++ (s.inputTextureSRV.map (·.handle)).toList ++
          (s.outputTexture.map (·.handle)).toList ++ (s.inputTexture.map (·.handle)).toList ++
          s.computeShader.toList ++ (s.constBuffer.map (·.handle)).toList ++ s.context.toList ++
          s.device.toList).map .release } := by
  rcases s with ⟨d, c, cb, cs, srv, uav, ti, tout, st, p, n, l⟩
  cases d <;> cases c <;> cases cb <;> cases cs <;> cases srv <;> cases uav <;> cases ti <;>
    cases tout <;> simp [cleanupResources, releaseOutputTextureUAV,
      releaseInputTextureSRV, releaseOutputTexture, releaseInputTexture,
      releaseComputeShader, releaseConstBuffer, releaseContext, releaseDevice, emit]

theorem allNull_cleanupResources (s : Renderer) : AllNull (cleanupResources s) := by
  rw [cleanupResources_eq]
  exact ⟨rfl, rfl, rfl, rfl, rfl, rfl, rfl, rfl⟩

theorem cleanupResources_of_allNull (s : Renderer) (h : AllNull s) : cleanupResources s = s := by
  obtain ⟨h1, h2, h3, h4, h5, h6, h7, h8⟩ := h
  rw [cleanupResources_eq, h1, h2, h3, h4, h5, h6, h7, h8]
  rcases s with ⟨d, c, cb, cs, srv, uav, ti, tout, st, p, n, l⟩
  simp only at h1 h2 h3 h4 h5 h6 h7 h8
  subst h1 h2 h3 h4 h5 h6 h7 h8
  simp

theorem liveHandles_of_allNull (s : Renderer) (h : AllNull s) : liveHandles s = [] := by
  obtain ⟨h1, h2, h3, h4, h5, h6, h7, h8⟩ := h
  simp [liveHandles, h1, h2, h3, h4, h5, h6, h7, h8]

theorem balanced_of_sameResources {s s2 : Renderer} (h : SameResources s s2)
    (hb : Balanced s) : Balanced s2 := by
  obtain ⟨hn, hl, _, _, _, ⟨ops, e, hops⟩, _⟩ := h
  refine balanced_of_other s s2 ops e ?_ hn hl hb
  intro op hop
  have := hops op hop
  constructor <;> intro h e2 <;> subst e2 <;> simp [GpuOp.isLifecycle] at this

theorem balanced_processFrame (powf : ℚ → ℚ → ℚ) (o : FrameOracle) (f : Mat) (s : Renderer)
    (hb : Balanced s) : Balanced (processFrame powf o f s).2 := by
  unfold processFrame
  split
  · exact hb
  · have he : Balanced (ensureSize o.textures f s).2 := by
      unfold ensureSize
      split
      · exact balanced_createTextures _ _ _ _ hb
      · exact hb
    generalize ensureSize o.textures f s = p at he
    rcases p with ⟨_ | _, s1⟩
    · exact he
    · exact balanced_of_sameResources (sameResources_renderFrame powf o f s1) he

theorem balanced_run (powf : ℚ → ℚ → ℚ) (c : Call) (s : Renderer) (hb : Balanced s) :
    Balanced (c.run powf s) := by
  cases c with
  | processFrame o f => exact balanced_processFrame powf o f s hb
  | updateProcessingParams p => exact hb

theorem balanced_runCalls (powf : ℚ → ℚ → ℚ) (calls : List Call) :
    ∀ s : Renderer, Balanced s → Balanced (runCalls powf calls s) := by
  induction calls with
  | nil => intro s hb; exact hb
  | cons c cs ih => intro s hb; exact ih _ (balanced_run powf c s hb)

theorem balanced_of_reachable (powf : ℚ → ℚ → ℚ) (s : Renderer) (h : Reachable powf s) :
    Balanced s := by
  obtain ⟨o, calls, rfl⟩ := h
  exact balanced_runCalls powf calls _ (balanced_construct o)

theorem construct_failed_eq (o : ConstructOracle)
    (h : (construct o).status.isInitialized = false) :
    ∃ s, construct o = cleanupResources s := by
  unfold construct at h ⊢
  generalize constructSteps o {} = p at h ⊢
  rcases p with ⟨_ | _, s⟩
  · exact ⟨_, rfl⟩
  · simp at h

/-- C9: over the whole life of a renderer (any outcome of construction, any sequence of
`processFrame` and `updateProcessingParams` calls with any outcomes of their runtime calls,
then destruction) no object is handed out twice and every object handed out is released
exactly once, and after destruction every resource member is null.  When construction fails,
every member is already null when the constructor returns, every object acquired up to the
failure has been released once, and the destructor that follows releases nothing.
`cleanupResources` is idempotent. -/
theorem handles_released_exactly_once (powf : ℚ → ℚ → ℚ) (o : ConstructOracle)
    (calls : List Call) :
    (∀ h, (destroy (runCalls powf calls (construct o))).log.count (.acquire h) ≤ 1 ∧
      (destroy (runCalls powf calls (construct o))).log.count (.release h) =
        (destroy (runCalls powf calls (construct o))).log.count (.acquire h)) ∧
    AllNull (destroy (runCalls powf calls (construct o))) ∧
    ((construct o).status.isInitialized = false →
      AllNull (construct o) ∧
      (∀ h, (construct o).log.count (.release h) = (construct o).log.count (.acquire h)) ∧
      destroy (construct o) = construct o) ∧
    (∀ s : Renderer, cleanupResources (cleanupResources s) = cleanupResources s ∧
      (cleanupResources (cleanupResources s)).log = (cleanupResources s).log) := by
  have idem : ∀ s : Renderer, cleanupResources (cleanupResources s) = cleanupResources s :=
    fun s => cleanupResources_of_allNull _ (allNull_cleanupResources s)
  have hb : Balanced (destroy (runCalls powf calls (construct o))) :=
    balanced_cleanupResources _ (balanced_runCalls powf calls _ (balanced_construct o))
  have hn : AllNull (destroy (runCalls powf calls (construct o))) := allNull_cleanupResources _
  refine ⟨fun h => ?_, hn, fun hf => ?_, fun s => ⟨idem s, by rw [idem s]⟩⟩
  · have h1 := hb.1 h
    have h2 := hb.2 h
    rw [liveHandles_of_allNull _ hn] at h2
    simp only [List.count_nil, Nat.add_zero] at h2
    refine ⟨?_, h2⟩
    rw [h1]
    split <;> omega
  · obtain ⟨s, hs⟩ := construct_failed_eq o hf
    have hn2 : AllNull (construct o) := by
      rw [hs]
      exact allNull_cleanupResources s
    refine ⟨hn2, fun h => ?_, cleanupResources_of_allNull _ hn2⟩
    have h2 := (balanced_construct o).2 h
    rw [liveHandles_of_allNull _ hn2] at h2
    simpa using h2

theorem handles_released_exactly_once_witness :
    AllNull (construct ⟨true, true, .failed (some "error X3000") false, true⟩) ∧
    destroy (construct ⟨true, true, .failed (some "error X3000") false, true⟩) =
      construct ⟨true, true, .failed (some "error X3000") false, true⟩ :=
  have h := (handles_released_exactly_once (fun x _ => x)
    ⟨true, true, .failed (some "error X3000") false, true⟩ []).2.2.1 (by decide)
  ⟨h.1, h.2.2⟩
/-! ## Resizing (claim C3) -/

theorem surfacesMatch_createTextures_ok (width height : Nat) (s : Renderer) :
    SurfacesMatch (createTextures ⟨true, true, true, true⟩ width height s).2 width height := by
  rw [createTextures_ok]
  exact ⟨⟨_, rfl, rfl, rfl⟩, ⟨_, rfl, rfl, rfl⟩, rfl, rfl⟩

theorem surfaceHandles_length_of_match (s : Renderer) (w h : Nat) (hm : SurfacesMatch s w h) :
    (surfaceHandles s).length = 4 := by
  obtain ⟨⟨t1, e1, _⟩, ⟨t2, e2, _⟩, h3, h4⟩ := hm
  cases h5 : s.inputTextureSRV with
  | none => simp [h5] at h3
  | some v =>
    cases h6 : s.outputTextureUAV with
    | none => simp [h6] at h4
    | some u => simp [surfaceHandles, e1, e2, h5, h6]

theorem processFrame_same_size (powf : ℚ → ℚ → ℚ) (o : FrameOracle) (f : Mat) (s : Renderer)
    (hinit : s.status.isInitialized = true) (hw : f.cols = s.status.textureWidth)
    (hh : f.rows = s.status.textureHeight) :
    processFrame powf o f s = (.ok (renderFrame powf o f s).1, (renderFrame powf o f s).2) := by
  unfold processFrame ensureSize
  rw [if_neg (by simp [hinit]), if_neg (by simp [hw, hh])]

theorem processFrame_resize (powf : ℚ → ℚ → ℚ) (o : FrameOracle) (f : Mat) (s : Renderer)
    (hinit : s.status.isInitialized = true) (ht : o.textures = ⟨true, true, true, true⟩)
    (hne : f.cols ≠ s.status.textureWidth ∨ f.rows ≠ s.status.textureHeight) :
    processFrame powf o f s =
      (.ok (renderFrame powf o f (createTextures ⟨true, true, true, true⟩ f.cols f.rows s).2).1,
        (renderFrame powf o f (createTextures ⟨true, true, true, true⟩ f.cols f.rows s).2).2) := by
  unfold processFrame ensureSize
  rw [if_neg (by simp [hinit]), if_pos hne, ht, createTextures_ok]

/-- What one successful frame leaves behind, whichever branch of the size check it took. -/
theorem processFrame_ok_summary (powf : ℚ → ℚ → ℚ) (o : FrameOracle) (f : Mat) (s : Renderer)
    (hinit : s.status.isInitialized = true) (ht : o.textures = ⟨true, true, true, true⟩) :
    (processFrame powf o f s).1.isOk = true ∧
    (processFrame powf o f s).2.status.isInitialized = true ∧
    (processFrame powf o f s).2.status.textureWidth = f.cols ∧
    (processFrame powf o f s).2.status.textureHeight = f.rows ∧
    ((f.cols ≠ s.status.textureWidth ∨ f.rows ≠ s.status.textureHeight) →
      SurfacesMatch (processFrame powf o f s).2 f.cols f.rows ∧
      surfaceHandles (processFrame powf o f s).2 =
        [s.nextHandle + 1, s.nextHandle + 3, s.nextHandle, s.nextHandle + 2] ∧
      ∃ rest, (processFrame powf o f s).2.log =
        s.log ++ (surfaceHandles s).map .release ++
          [.acquire s.nextHandle, .acquire (s.nextHandle + 1), .acquire (s.nextHandle + 2),
            .acquire (s.nextHandle + 3)] ++ rest ∧
        ∀ op ∈ rest, op.isLifecycle = false) := by
  by_cases hne : f.cols ≠ s.status.textureWidth ∨ f.rows ≠ s.status.textureHeight
  · rw [processFrame_resize powf o f s hinit ht hne]
    obtain ⟨_, _, hf, hst, _, ⟨ops, e, hops⟩, hm⟩ :=
      sameResources_renderFrame powf o f
        (createTextures ⟨true, true, true, true⟩ f.cols f.rows s).2
    simp only [hst]
    refine ⟨rfl, ?_, ?_, ?_, fun _ => ⟨?_, ?_, ops, ?_, hops⟩⟩
    · rw [createTextures_ok]; exact hinit
    · rw [createTextures_ok]
    · rw [createTextures_ok]
    · exact (hm _ _).mpr (surfacesMatch_createTextures_ok _ _ _)
    · rw [hf, createTextures_ok]
      simp [surfaceHandles]
    · rw [e, createTextures_ok]
  · rw [processFrame_same_size powf o f s hinit (by tauto) (by tauto)]
    obtain ⟨_, _, _, hst, _, _, _⟩ := sameResources_renderFrame powf o f s
    simp only [hst]
    refine ⟨rfl, hinit, ?_, ?_, fun h => absurd h hne⟩
    · by_contra h; exact hne (Or.inl (fun e => h e.symm))
    · by_contra h; exact hne (Or.inr (fun e => h e.symm))
theorem not_live_of_fresh (s : Renderer) (hb : Balanced s) (h : Nat) (hh : s.nextHandle ≤ h) :
    h ∉ liveHandles s ∧ s.log.count (.acquire h) = 0 := by
  have h1 := hb.1 h
  have h2 := hb.2 h
  rw [if_neg (by omega)] at h1
  refine ⟨fun hm => ?_, h1⟩
  have := List.count_pos_iff.mpr hm
  omega

/-- C3: on a reachable, initialized renderer, `processFrame(A)` followed by `processFrame(B)`
with `B` of a size other than that of `A`, all creation calls succeeding (whatever the two map
calls return): both calls return normally; `getStatus` then reports the width and height of
`B`; the second call first releases every surface and view held after `A` (all four of them
whenever the pair for `A` exists, which is the case as soon as `A` itself caused an
allocation), then creates four objects never handed out before, which are the surfaces and
views held afterwards, and creates or releases nothing else.  Conversely a frame whose size
equals the recorded one makes the call create and release nothing and keep the same four
members. -/
theorem resize_releases_then_allocates (powf : ℚ → ℚ → ℚ) (s : Renderer)
    (hr : Reachable powf s) (hinit : s.status.isInitialized = true) (oA oB : FrameOracle)
    (A B : Mat) (hA : oA.textures = ⟨true, true, true, true⟩)
    (hB : oB.textures = ⟨true, true, true, true⟩) (hne : ¬(B.cols = A.cols ∧ B.rows = A.rows)) :
    (processFrame powf oA A s).1.isOk = true ∧
    (processFrame powf oB B (processFrame powf oA A s).2).1.isOk = true ∧
    (getStatus (processFrame powf oB B (processFrame powf oA A s).2).2).textureWidth = B.cols ∧
    (getStatus (processFrame powf oB B (processFrame powf oA A s).2).2).textureHeight = B.rows ∧
    SurfacesMatch (processFrame powf oB B (processFrame powf oA A s).2).2 B.cols B.rows ∧
    (∃ rest, (processFrame powf oB B (processFrame powf oA A s).2).2.log =
        (processFrame powf oA A s).2.log ++
          (surfaceHandles (processFrame powf oA A s).2).map .release ++
          [.acquire (processFrame powf oA A s).2.nextHandle,
            .acquire ((processFrame powf oA A s).2.nextHandle + 1),
            .acquire ((processFrame powf oA A s).2.nextHandle + 2),
            .acquire ((processFrame powf oA A s).2.nextHandle + 3)] ++ rest ∧
        ∀ op ∈ rest, op.isLifecycle = false) ∧
    surfaceHandles (processFrame powf oB B (processFrame powf oA A s).2).2 =
      [(processFrame powf oA A s).2.nextHandle + 1, (processFrame powf oA A s).2.nextHandle + 3,
        (processFrame powf oA A s).2.nextHandle, (processFrame powf oA A s).2.nextHandle + 2] ∧
    (∀ h ∈ surfaceHandles (processFrame powf oB B (processFrame powf oA A s).2).2,
      h ∉ liveHandles (processFrame powf oA A s).2 ∧
      (processFrame powf oA A s).2.log.count (.acquire h) = 0) ∧
    (SurfacesMatch (processFrame powf oA A s).2 A.cols A.rows →
      (surfaceHandles (processFrame powf oA A s).2).length = 4) ∧
    ((A.cols ≠ s.status.textureWidth ∨ A.rows ≠ s.status.textureHeight) →
      SurfacesMatch (processFrame powf oA A s).2 A.cols A.rows) ∧
    (∀ (o : FrameOracle) (f : Mat) (s0 : Renderer), s0.status.isInitialized = true →
      f.cols = s0.status.textureWidth → f.rows = s0.status.textureHeight →
      (processFrame powf o f s0).1.isOk = true ∧
      surfaceHandles (processFrame powf o f s0).2 = surfaceHandles s0 ∧
      ∃ rest, (processFrame powf o f s0).2.log = s0.log ++ rest ∧
        ∀ op ∈ rest, op.isLifecycle = false) := by
  have hbs : Balanced s := balanced_of_reachable powf s hr
  have hbA : Balanced (processFrame powf oA A s).2 := balanced_processFrame powf oA A s hbs
  obtain ⟨a1, a2, a3, a4, a5⟩ := processFrame_ok_summary powf oA A s hinit hA
  have hneB : B.cols ≠ (processFrame powf oA A s).2.status.textureWidth ∨
      B.rows ≠ (processFrame powf oA A s).2.status.textureHeight := by
    rw [a3, a4]
    by_contra hc
    push_neg at hc
    exact hne hc
  obtain ⟨b1, _, b3, b4, b5⟩ :=
    processFrame_ok_summary powf oB B (processFrame powf oA A s).2 a2 hB
  obtain ⟨c1, c2, c3⟩ := b5 hneB
  refine ⟨a1, b1, b3, b4, c1, c3, c2, ?_, surfaceHandles_length_of_match _ _ _,
    fun h => (a5 h).1, ?_⟩
  · intro h hm
    rw [c2] at hm
    apply not_live_of_fresh _ hbA
    simp only [List.mem_cons, List.mem_singleton, List.not_mem_nil, or_false] at hm
    omega
  · intro o f s0 h0 hw hh
    rw [processFrame_same_size powf o f s0 h0 hw hh]
    obtain ⟨_, _, hf, _, _, hl, _⟩ := sameResources_renderFrame powf o f s0
    exact ⟨rfl, hf, hl⟩

theorem resize_releases_then_allocates_witness :
    (getStatus (processFrame (fun x _ => x) ⟨⟨true, true, true, true⟩, true, some 16⟩
      (Mat.ofArray 1 2 [1, 2, 3, 4, 5, 6])
      (processFrame (fun x _ => x) ⟨⟨true, true, true, true⟩, true, some 16⟩
        (Mat.ofArray 1 1 [1, 2, 3]) (construct ⟨true, true, .ok none, true⟩)).2).2).textureWidth
      = 2 :=
  (resize_releases_then_allocates (fun x _ => x) (construct ⟨true, true, .ok none, true⟩)
    ⟨⟨true, true, .ok none, true⟩, [], rfl⟩ (by decide)
    ⟨⟨true, true, true, true⟩, true, some 16⟩ ⟨⟨true, true, true, true⟩, true, some 16⟩
    (Mat.ofArray 1 1 [1, 2, 3]) (Mat.ofArray 1 2 [1, 2, 3, 4, 5, 6]) rfl rfl
    (by decide)).2.2.1
/-! ## Texture contents through one frame -/

theorem uploadParams_textures (ok : Bool) (s : Renderer) :
    (uploadParams ok s).inputTexture = s.inputTexture ∧
    (uploadParams ok s).outputTexture = s.outputTexture := by
  cases ok <;> simp [uploadParams, emit]

theorem uploadInput_textures (f : Mat) (s : Renderer) :
    (uploadInput f s).inputTexture =
      s.inputTexture.map (fun t => updateSubresource t f.data f.step) ∧
    (uploadInput f s).outputTexture = s.outputTexture := by
  cases h : s.inputTexture <;> simp [uploadInput, emit, h]

theorem dispatchKernel_textures (powf : ℚ → ℚ → ℚ) (f : Mat) (s : Renderer) :
    (dispatchKernel powf f s).inputTexture = s.inputTexture ∧
    ∀ tout, s.outputTexture = some tout →
      ∃ t2, (dispatchKernel powf f s).outputTexture = some t2 ∧ t2.width = tout.width ∧
        t2.height = tout.height ∧ t2.handle = tout.handle := by
  cases hu : s.outputTextureUAV <;> cases ho : s.outputTexture <;>
    simp [dispatchKernel, emit, hu, ho, runKernel]

theorem copyToOutput_textures (f : Mat) (s : Renderer) (tin tout : Texture2D)
    (hin : s.inputTexture = some tin) (hout : s.outputTexture = some tout)
    (hw : tout.width = tin.width) (hh : tout.height = tin.height) :
    (copyToOutput f s).inputTexture = some tin ∧
    ∃ t2, (copyToOutput f s).outputTexture = some t2 ∧ t2.texels = tin.texels ∧
      t2.width = tin.width ∧ t2.height = tin.height ∧ t2.handle = tout.handle := by
  simp [copyToOutput, emit, hin, hout, copyResource, hw, hh]

/-- On surfaces of the size of the frame, with the readback map succeeding, the image handed
back holds the bytes that were uploaded from the host buffer, row by row: the kernel result
is overwritten by the copy of the input texture into the output texture before the map. -/
theorem renderFrame_returns_upload (powf : ℚ → ℚ → ℚ) (o : FrameOracle) (f : Mat)
    (s : Renderer) (P : Nat) (tin tout : Texture2D) (hm : o.mapOutput = some P)
    (hP : 4 * f.cols ≤ P) (hin : s.inputTexture = some tin) (hout : s.outputTexture = some tout)
    (hiw : tin.width = f.cols) (hih : tin.height = f.rows) (how : tout.width = f.cols)
    (hoh : tout.height = f.rows) (i k : Nat) (hi : i < f.rows) (hk : k < 4 * f.cols) :
    (renderFrame powf o f s).1.data (i * (f.cols * 4) + k) = f.data (i * f.step + k) := by
  have h1 := uploadParams_textures o.mapConstBuffer s
  have h2 := uploadInput_textures f (uploadParams o.mapConstBuffer s)
  have h3 := dispatchKernel_textures powf f (uploadInput f (uploadParams o.mapConstBuffer s))
  rw [h1.1, hin] at h2
  rw [h1.2, hout] at h2
  rw [h2.1] at h3
  obtain ⟨t2, e2, w2, hh2, _⟩ := h3.2 tout h2.2
  obtain ⟨_, t3, e3, x3, w3, hh3, _⟩ :=
    copyToOutput_textures f _ (updateSubresource tin f.data f.step) t2 h3.1 e2
      (by rw [w2, how]; exact hiw.symm) (by rw [hh2, hoh]; exact hih.symm)
  have hS : 4 * f.cols ≤ f.cols * 4 := by omega
  have hl := readbackLoop_inside f.cols P (f.cols * 4) hS (mappedView t3 P) f.rows 0 0
    (fun _ => none) i k hi hk
  simp only [Nat.zero_add] at hl
  have hw3 : t3.width = f.cols := by rw [w3]; exact hiw
  have hh3b : t3.height = f.rows := by rw [hh3]; exact hih
  have hmv := mappedView_row t3 P i k (by omega) (by omega) (by omega)
  simp only [renderFrame, readback, hm, Mat.create, emit, e3]
  rw [hl, hmv, x3]
  simp [updateSubresource, hiw, hih, hi, hk]
/-- Whenever the readback map fails, a call that got past the size check returns normally
with the image `create` made, none of whose bytes is written. -/
theorem processFrame_map_failure (powf : ℚ → ℚ → ℚ) (o : FrameOracle) (f : Mat) (s : Renderer)
    (hinit : s.status.isInitialized = true) (ht : o.textures = ⟨true, true, true, true⟩)
    (hm : o.mapOutput = none) :
    ∃ out, (processFrame powf o f s).1 = .ok out ∧ out.rows = f.rows ∧ out.cols = f.cols ∧
      ∀ a, out.data a = none := by
  by_cases hne : f.cols ≠ s.status.textureWidth ∨ f.rows ≠ s.status.textureHeight
  · rw [processFrame_resize powf o f s hinit ht hne]
    refine ⟨_, rfl, ?_, ?_, ?_⟩ <;> simp [renderFrame, readback, hm, Mat.create]
  · rw [processFrame_same_size powf o f s hinit (by tauto) (by tauto)]
    refine ⟨_, rfl, ?_, ?_, ?_⟩ <;> simp [renderFrame, readback, hm, Mat.create]

/-- Whenever every runtime call succeeds on surfaces of the size of the frame, the image
handed back holds, row by row, the bytes uploaded from the host buffer, whatever the
coefficients and the kernel. -/
theorem processFrame_returns_upload (powf : ℚ → ℚ → ℚ) (o : FrameOracle) (f : Mat)
    (s : Renderer) (P : Nat) (hinit : s.status.isInitialized = true)
    (ht : o.textures = ⟨true, true, true, true⟩) (hm : o.mapOutput = some P)
    (hP : 4 * f.cols ≤ P)
    (hs : (f.cols ≠ s.status.textureWidth ∨ f.rows ≠ s.status.textureHeight) ∨
      SurfacesMatch s f.cols f.rows) :
    ∃ out, (processFrame powf o f s).1 = .ok out ∧ out.rows = f.rows ∧ out.cols = f.cols ∧
      ∀ i k, i < f.rows → k < 4 * f.cols →
        out.data (i * (f.cols * 4) + k) = f.data (i * f.step + k) := by
  have hdim : ∀ s0 : Renderer, (renderFrame powf o f s0).1.rows = f.rows ∧
      (renderFrame powf o f s0).1.cols = f.cols := by
    intro s0
    constructor <;> simp [renderFrame, readback, hm, Mat.create]
  by_cases hne : f.cols ≠ s.status.textureWidth ∨ f.rows ≠ s.status.textureHeight
  · rw [processFrame_resize powf o f s hinit ht hne]
    refine ⟨_, rfl, (hdim _).1, (hdim _).2, fun i k hi hk => ?_⟩
    exact renderFrame_returns_upload powf o f _ P ⟨s.nextHandle, f.cols, f.rows, fun _ _ => none⟩
      ⟨s.nextHandle + 2, f.cols, f.rows, fun _ _ => none⟩ hm hP
      (by rw [createTextures_ok]) (by rw [createTextures_ok]) rfl rfl rfl rfl i k hi hk
  · rw [processFrame_same_size powf o f s hinit (by tauto) (by tauto)]
    rcases hs with hs | hs
    · exact absurd hs hne
    · obtain ⟨⟨tin, e1, w1, h1⟩, ⟨tout, e2, w2, h2⟩, _, _⟩ := hs
      exact ⟨_, rfl, (hdim _).1, (hdim _).2, fun i k hi hk =>
        renderFrame_returns_upload powf o f s P tin tout hm hP e1 e2 w1 h1 w2 h2 i k hi hk⟩
/-! ## The surface-pair invariant at its failing inputs (claim C4) -/

/-- C4, evaluated at the failing inputs.  (1) An empty 0 x 0 frame on a freshly constructed
renderer passes the size check, because the recorded size is still 0 x 0, although no surface
or view exists; the call goes on to upload and dispatch on null resources and returns
normally.  (2) After a 1 x 1 frame, a 2 x 2 frame whose first creation fails throws with all
four members released and the recorded size still 1 x 1; the next 1 x 1 frame passes the size
check and uploads and dispatches on null resources.  (3) When instead the creation of the
output texture fails, the 2 x 2 input texture and its view survive with the recorded size
still 1 x 1, and the next 1 x 1 frame is uploaded into the 2 x 2 texture, with no output
surface.  Hence the invariant does not hold of the program. -/
theorem surface_pair_invariant_violated :
    ((ensureSize ⟨true, true, true, true⟩ (Mat.ofArray 0 0 [])
        (construct ⟨true, true, .ok none, true⟩)).1.isOk = true ∧
      surfaceHandles (ensureSize ⟨true, true, true, true⟩ (Mat.ofArray 0 0 [])
        (construct ⟨true, true, .ok none, true⟩)).2 = [] ∧
      (processFrame (fun x _ => x) ⟨⟨true, true, true, true⟩, true, some 4⟩ (Mat.ofArray 0 0 [])
        (construct ⟨true, true, .ok none, true⟩)).1.isOk = true ∧
      (processFrame (fun x _ => x) ⟨⟨true, true, true, true⟩, true, some 4⟩ (Mat.ofArray 0 0 [])
        (construct ⟨true, true, .ok none, true⟩)).2.log =
        [.acquire 0, .acquire 1, .acquire 2, .compile true, .acquire 3,
          .blobRelease .shaderBlob, .mapWrite (some 2) true, .unmap (some 2),
          .updateSubresource none [], .csBind (some 3) (some 2) none none, .dispatch 0 0 1,
          .copySubresourceRegion none none 0 0, .copyResource none none, .mapRead none true,
          .unmap none]) ∧
    ((processFrame (fun x _ => x) ⟨⟨false, true, true, true⟩, true, some 8⟩
        (Mat.ofArray 2 2 [1, 2, 3, 4, 5, 6, 7, 8, 9, 10, 11, 12])
        (processFrame (fun x _ => x) ⟨⟨true, true, true, true⟩, true, some 4⟩
          (Mat.ofArray 1 1 [1, 2, 3]) (construct ⟨true, true, .ok none, true⟩)).2).1.isOk
        = false ∧
      (runCalls (fun x _ => x)
        [.processFrame ⟨⟨true, true, true, true⟩, true, some 4⟩ (Mat.ofArray 1 1 [1, 2, 3]),
          .processFrame ⟨⟨false, true, true, true⟩, true, some 8⟩
            (Mat.ofArray 2 2 [1, 2, 3, 4, 5, 6, 7, 8, 9, 10, 11, 12])]
        (construct ⟨true, true, .ok none, true⟩)).status = ⟨true, 1, 1, 0, ""⟩ ∧
      surfaceHandles (runCalls (fun x _ => x)
        [.processFrame ⟨⟨true, true, true, true⟩, true, some 4⟩ (Mat.ofArray 1 1 [1, 2, 3]),
          .processFrame ⟨⟨false, true, true, true⟩, true, some 8⟩
            (Mat.ofArray 2 2 [1, 2, 3, 4, 5, 6, 7, 8, 9, 10, 11, 12])]
        (construct ⟨true, true, .ok none, true⟩)) = [] ∧
      (processFrame (fun x _ => x) ⟨⟨true, true, true, true⟩, true, some 4⟩
        (Mat.ofArray 1 1 [1, 2, 3])
        (runCalls (fun x _ => x)
          [.processFrame ⟨⟨true, true, true, true⟩, true, some 4⟩ (Mat.ofArray 1 1 [1, 2, 3]),
            .processFrame ⟨⟨false, true, true, true⟩, true, some 8⟩
              (Mat.ofArray 2 2 [1, 2, 3, 4, 5, 6, 7, 8, 9, 10, 11, 12])]
          (construct ⟨true, true, .ok none, true⟩))).1.isOk = true ∧
      ((processFrame (fun x _ => x) ⟨⟨true, true, true, true⟩, true, some 4⟩
        (Mat.ofArray 1 1 [1, 2, 3])
        (runCalls (fun x _ => x)
          [.processFrame ⟨⟨true, true, true, true⟩, true, some 4⟩ (Mat.ofArray 1 1 [1, 2, 3]),
            .processFrame ⟨⟨false, true, true, true⟩, true, some 8⟩
              (Mat.ofArray 2 2 [1, 2, 3, 4, 5, 6, 7, 8, 9, 10, 11, 12])]
          (construct ⟨true, true, .ok none, true⟩))).2.log.drop 24) =
        [.mapWrite (some 2) true, .unmap (some 2), .updateSubresource none [],
          .csBind (some 3) (some 2) none none, .dispatch 1 1 1,
          .copySubresourceRegion none none 1 1, .copyResource none none, .mapRead none true,
          .unmap none]) ∧
    (((runCalls (fun x _ => x)
        [.processFrame ⟨⟨true, true, true, true⟩, true, some 4⟩ (Mat.ofArray 1 1 [1, 2, 3]),
          .processFrame ⟨⟨true, true, false, true⟩, true, some 8⟩
            (Mat.ofArray 2 2 [1, 2, 3, 4, 5, 6, 7, 8, 9, 10, 11, 12])]
        (construct ⟨true, true, .ok none, true⟩)).inputTexture.map
          fun t => (t.width, t.height)) = some (2, 2) ∧
      (runCalls (fun x _ => x)
        [.processFrame ⟨⟨true, true, true, true⟩, true, some 4⟩ (Mat.ofArray 1 1 [1, 2, 3]),
          .processFrame ⟨⟨true, true, false, true⟩, true, some 8⟩
            (Mat.ofArray 2 2 [1, 2, 3, 4, 5, 6, 7, 8, 9, 10, 11, 12])]
        (construct ⟨true, true, .ok none, true⟩)).status = ⟨true, 1, 1, 0, ""⟩ ∧
      ((processFrame (fun x _ => x) ⟨⟨true, true, true, true⟩, true, some 4⟩
        (Mat.ofArray 1 1 [1, 2, 3])
        (runCalls (fun x _ => x)
          [.processFrame ⟨⟨true, true, true, true⟩, true, some 4⟩ (Mat.ofArray 1 1 [1, 2, 3]),
            .processFrame ⟨⟨true, true, false, true⟩, true, some 8⟩
              (Mat.ofArray 2 2 [1, 2, 3, 4, 5, 6, 7, 8, 9, 10, 11, 12])]
          (construct ⟨true, true, .ok none, true⟩))).2.log.drop 26) =
        [.mapWrite (some 2) true, .unmap (some 2),
          .updateSubresource (some 8) [(0, 8), (3, 11)], .csBind (some 3) (some 2) (some 9) none,
          .dispatch 1 1 1, .copySubresourceRegion none (some 8) 1 1,
          .copyResource none (some 8), .mapRead none true, .unmap none]) ∧
    ¬ SurfacePairInvariant (fun x _ => x) := by
  refine ⟨by decide, by decide, by decide, ?_⟩
  intro h
  have h1 := h (construct ⟨true, true, .ok none, true⟩) ⟨true, true, true, true⟩
    (Mat.ofArray 0 0 []) (construct ⟨true, true, .ok none, true⟩)
    ⟨⟨true, true, .ok none, true⟩, [], rfl⟩ (by decide) rfl
  obtain ⟨⟨⟨t, ht, _⟩, _⟩, _⟩ := h1
  have hn : (construct ⟨true, true, .ok none, true⟩).inputTexture.isSome = false := by decide
  rw [ht] at hn
  simp at hn

/-! ## Swallowed map failures (claim C5) -/

/-- C5, evaluated at the failing input.  On a freshly constructed renderer, a 1 x 1 frame
whose four creations and parameter map succeed but whose readback map fails makes
`processFrame` return normally: the 1 x 1 four-channel image handed back has none of its four
bytes written, and the log ends with the failed map.  Likewise a failed map of the parameter
buffer is not reported: the call returns normally and the buffer still holds the coefficients
of construction, not the ones set by `updateProcessingParams`.  A failed creation, by
contrast, throws. -/
theorem map_failure_returns_unwritten_image :
    ((processFrame (fun x _ => x) ⟨⟨true, true, true, true⟩, true, none⟩
        (Mat.ofArray 1 1 [10, 20, 30]) (construct ⟨true, true, .ok none, true⟩)).1.toOption.map
        fun m => ([m.rows, m.cols], [m.data 0, m.data 1, m.data 2, m.data 3]))
      = some ([1, 1], [none, none, none, none]) ∧
    (processFrame (fun x _ => x) ⟨⟨true, true, true, true⟩, true, none⟩
        (Mat.ofArray 1 1 [10, 20, 30]) (construct ⟨true, true, .ok none, true⟩)).2.log.drop 6 =
      [.acquire 4, .acquire 5, .acquire 6, .acquire 7, .mapWrite (some 2) true,
        .unmap (some 2), .updateSubresource (some 4) [(0, 4)],
        .csBind (some 3) (some 2) (some 5) (some 7), .dispatch 1 1 1,
        .copySubresourceRegion (some 6) (some 4) 1 1, .copyResource (some 6) (some 4),
        .mapRead (some 6) false] ∧
    (processFrame (fun x _ => x) ⟨⟨true, true, true, true⟩, false, some 4⟩
        (Mat.ofArray 1 1 [10, 20, 30])
        (updateProcessingParams ⟨2, 1, 1, 1⟩
          (construct ⟨true, true, .ok none, true⟩))).1.isOk = true ∧
    ((processFrame (fun x _ => x) ⟨⟨true, true, true, true⟩, false, some 4⟩
        (Mat.ofArray 1 1 [10, 20, 30])
        (updateProcessingParams ⟨2, 1, 1, 1⟩
          (construct ⟨true, true, .ok none, true⟩))).2.constBuffer.map (·.contents))
      = some ⟨1, 1, 1, 1⟩ ∧
    (processFrame (fun x _ => x) ⟨⟨true, true, false, true⟩, true, some 4⟩
        (Mat.ofArray 1 1 [10, 20, 30]) (construct ⟨true, true, .ok none, true⟩)).1.isOk
      = false := by
  decide

/-! ## The bytes read back (claim C6) -/

theorem shaderMain_doubles_gray (powf : ℚ → ℚ → ℚ) (hp : ∀ x, powf x 1 = x) (c a : ℚ) :
    shaderMain powf ⟨2, 1, 1, 1⟩ ⟨c, c, c, a⟩ = ⟨2 * c, 2 * c, 2 * c, a⟩ := by
  have hl : c * 2 * 0.2126 + c * 2 * 0.7152 + c * 2 * 0.0722 = 2 * c := by norm_num; ring
  simp only [shaderMain, lerp, hl]
  norm_num [hp]
  ring

theorem unorm8_double (g : Nat) (hg : g ≤ 255) :
    unorm8 (2 * ((g : ℚ) / 255)) = min 255 (2 * g) := by
  unfold unorm8
  by_cases h : 2 * g ≤ 255
  · have h1 : (2 : ℚ) * ((g : ℚ) / 255) ≤ 1 := by
      have : ((2 * g : ℕ) : ℚ) ≤ 255 := by exact_mod_cast h
      push_cast at this
      rw [← mul_div_assoc, div_le_one (by norm_num)]
      exact this
    have h0 : (0 : ℚ) ≤ 2 * ((g : ℚ) / 255) := by positivity
    rw [min_eq_right h1, max_eq_right h0]
    have e : (2 : ℚ) * ((g : ℚ) / 255) * 255 + 1 / 2 = ((2 * g : ℕ) : ℤ) + 1 / 2 := by
      push_cast
      ring
    rw [e]
    have hf : ⌊(((2 * g : ℕ) : ℤ) : ℚ) + 1 / 2⌋ = ((2 * g : ℕ) : ℤ) := by
      rw [Int.floor_eq_iff]
      constructor <;> norm_num
    rw [hf, Int.toNat_ofNat]
    omega
  · have h1 : (1 : ℚ) ≤ 2 * ((g : ℚ) / 255) := by
      have : ((256 : ℕ) : ℚ) ≤ ((2 * g : ℕ) : ℚ) := by exact_mod_cast (by omega : 256 ≤ 2 * g)
      push_cast at this
      rw [← mul_div_assoc, one_le_div (by norm_num)]
      linarith
    rw [min_eq_left h1, max_eq_right (by norm_num)]
    have hf : ⌊(1 : ℚ) * 255 + 1 / 2⌋ = 255 := by
      rw [Int.floor_eq_iff]
      constructor <;> norm_num
    rw [hf]
    simp
    omega

/-- The kernel on a gray texel: with brightness 2 and the other coefficients 1, and `pow`
satisfying `pow(x, 1) = x`, each colour channel `g` becomes `min(255, 2g)`, alpha is kept. -/
theorem kernel_doubles_gray (powf : ℚ → ℚ → ℚ) (hp : ∀ x, powf x 1 = x) (t : Texture2D)
    (x y g a : Nat) (hx : x < t.width) (hy : y < t.height) (hg : g ≤ 255) (ha : a ≤ 255)
    (h0 : t.texels y (4 * x) = some g) (h1 : t.texels y (4 * x + 1) = some g)
    (h2 : t.texels y (4 * x + 2) = some g) (h3 : t.texels y (4 * x + 3) = some a) :
    (∀ ch, ch < 3 →
      storeChannel ((loadTexel t x y).map (shaderMain powf ⟨2, 1, 1, 1⟩)) ch
        = some (min 255 (2 * g))) ∧
    storeChannel ((loadTexel t x y).map (shaderMain powf ⟨2, 1, 1, 1⟩)) 3 = some a := by
  have hl : loadTexel t x y = some ⟨(g : ℚ) / 255, (g : ℚ) / 255, (g : ℚ) / 255, (a : ℚ) / 255⟩ := by
    simp [loadTexel, hx, hy, h0, h1, h2, h3]
  rw [hl, Option.map_some', shaderMain_doubles_gray powf hp]
  constructor
  · intro ch hch
    have := unorm8_double g hg
    rcases ch with _ | _ | _ | ch
    · simp [storeChannel, this]
    · simp [storeChannel, this]
    · simp [storeChannel, this]
    · omega
  · simp only [storeChannel, Option.map_some']
    congr 1
    unfold unorm8
    have h1 : (a : ℚ) / 255 ≤ 1 := by
      rw [div_le_one (by norm_num)]
      exact_mod_cast ha
    have h0 : (0 : ℚ) ≤ (a : ℚ) / 255 := by positivity
    rw [min_eq_right h1, max_eq_right h0]
    have e : (a : ℚ) / 255 * 255 + 1 / 2 = ((a : ℤ) : ℚ) + 1 / 2 := by
      push_cast
      ring
    rw [e]
    have hf : ⌊((a : ℤ) : ℚ) + 1 / 2⌋ = (a : ℤ) := by
      rw [Int.floor_eq_iff]
      constructor <;> norm_num
    rw [hf, Int.toNat_ofNat]
/-- C6, evaluated at the failing input.  After `updateProcessingParams` with brightness 2 and
the other coefficients 1, a 1 x 1 frame of the gray pixel (100, 100, 100, 255) is processed
with every runtime call succeeding.  Right after the dispatch the output texture holds
(200, 200, 200, 255), the kernel result under the new coefficients; but the image handed back
holds (100, 100, 100, 255), the uploaded input: `CopyResource(outputTexture, inputTexture)`
overwrites the kernel result before the output texture is mapped.  The same happens through
the binding with a 1 x 2 gray frame of three channels: the bytes handed back are the six
input bytes followed by two indeterminate ones. -/
theorem readback_returns_input_not_kernel_result :
    ((dispatchKernel (fun x _ => x) (Mat.ofBytes 1 1 4 [100, 100, 100, 255])
        (uploadInput (Mat.ofBytes 1 1 4 [100, 100, 100, 255])
          (uploadParams true
            (ensureSize ⟨true, true, true, true⟩ (Mat.ofBytes 1 1 4 [100, 100, 100, 255])
              (updateProcessingParams ⟨2, 1, 1, 1⟩
                (construct ⟨true, true, .ok none, true⟩))).2))).outputTexture.map
        fun t => [t.texels 0 0, t.texels 0 1, t.texels 0 2, t.texels 0 3])
      = some [some 200, some 200, some 200, some 255] ∧
    ((processFrame (fun x _ => x) ⟨⟨true, true, true, true⟩, true, some 4⟩
        (Mat.ofBytes 1 1 4 [100, 100, 100, 255])
        (updateProcessingParams ⟨2, 1, 1, 1⟩
          (construct ⟨true, true, .ok none, true⟩))).1.toOption.map
        fun m => [m.data 0, m.data 1, m.data 2, m.data 3])
      = some [some 100, some 100, some 100, some 255] ∧
    ((processFrame (fun x _ => x) ⟨⟨true, true, true, true⟩, true, some 4⟩
        (Mat.ofBytes 1 1 4 [100, 100, 100, 255])
        (updateProcessingParams ⟨2, 1, 1, 1⟩
          (construct ⟨true, true, .ok none, true⟩))).2.log.drop 14)
      = [.dispatch 1 1 1, .copySubresourceRegion (some 6) (some 4) 1 1,
          .copyResource (some 6) (some 4), .mapRead (some 6) true, .unmap (some 6)] ∧
    ((process_frame (fun x _ => x) ⟨⟨true, true, true, true⟩, true, some 8⟩ [1, 2, 3]
        [100, 100, 100, 100, 100, 100]
        (updateProcessingParams ⟨2, 1, 1, 1⟩
          (construct ⟨true, true, .ok none, true⟩))).1.toOption.map
        fun m => (List.range 8).map m.data)
      = some [some 100, some 100, some 100, some 100, some 100, some 100, none, none] := by
  refine ⟨?_, by decide, by decide, by decide⟩
  have hk := kernel_doubles_gray (fun x _ => x) (fun _ => rfl)
    (updateSubresource ⟨4, 1, 1, fun _ _ => none⟩ (Mat.ofBytes 1 1 4 [100, 100, 100, 255]).data 4)
    0 0 100 255
    (by decide) (by decide) (by decide) (by decide) (by decide) (by decide) (by decide)
    (by decide)
  have h0 := hk.1 0 (by decide)
  have h1 := hk.1 1 (by decide)
  have h2 := hk.1 2 (by decide)
  have h3 := hk.2
  have e : (dispatchKernel (fun x _ => x) (Mat.ofBytes 1 1 4 [100, 100, 100, 255])
        (uploadInput (Mat.ofBytes 1 1 4 [100, 100, 100, 255])
          (uploadParams true
            (ensureSize ⟨true, true, true, true⟩ (Mat.ofBytes 1 1 4 [100, 100, 100, 255])
              (updateProcessingParams ⟨2, 1, 1, 1⟩
                (construct ⟨true, true, .ok none, true⟩))).2))).outputTexture =
      some (runKernel (fun x _ => x) ⟨2, 1, 1, 1⟩ (threadGroups 1) (threadGroups 1)
        (some (updateSubresource ⟨4, 1, 1, fun _ _ => none⟩
          (Mat.ofBytes 1 1 4 [100, 100, 100, 255]).data 4)) ⟨6, 1, 1, fun _ _ => none⟩) := rfl
  rw [e]
  have g1 : (0 : Nat) < 8 * threadGroups 1 := by decide
  have t0 : ∀ k, k < 4 → (runKernel (fun x _ => x) ⟨2, 1, 1, 1⟩ (threadGroups 1) (threadGroups 1)
        (some (updateSubresource ⟨4, 1, 1, fun _ _ => none⟩
          (Mat.ofBytes 1 1 4 [100, 100, 100, 255]).data 4)) ⟨6, 1, 1, fun _ _ => none⟩).texels 0 k
        = storeChannel ((loadTexel (updateSubresource ⟨4, 1, 1, fun _ _ => none⟩
          (Mat.ofBytes 1 1 4 [100, 100, 100, 255]).data 4) 0 0).map
            (shaderMain (fun x _ => x) ⟨2, 1, 1, 1⟩)) k := by
    intro k hk4
    have hd : k / 4 = 0 := by omega
    have hm : k % 4 = k := by omega
    simp only [runKernel, hd, hm]
    rw [if_pos ⟨by decide, by omega, g1, g1⟩]
  simp only [Option.map_some']
  rw [t0 0 (by decide), t0 1 (by decide), t0 2 (by decide), t0 3 (by decide), h0, h1, h2, h3]
  rfl

/-! ## The upload (claim C10) -/

theorem renderFrame_log_mem (powf : ℚ → ℚ → ℚ) (o : FrameOracle) (f : Mat) (s : Renderer)
    (op : GpuOp) (hop : op ∈ (uploadInput f (uploadParams o.mapConstBuffer s)).log) :
    op ∈ (renderFrame powf o f s).2.log := by
  unfold renderFrame
  obtain ⟨_, _, _, _, _, ⟨ops, e, _⟩, _⟩ :=
    sameResources_trans (sameResources_dispatchKernel powf f
      (uploadInput f (uploadParams o.mapConstBuffer s)))
      (sameResources_trans (sameResources_copyToOutput f _)
        (sameResources_readback o.mapOutput (Mat.create f.rows f.cols) _))
  rw [e]
  exact List.mem_append_left _ hop

theorem renderFrame_inputTexture (powf : ℚ → ℚ → ℚ) (o : FrameOracle) (f : Mat)
    (s : Renderer) :
    (renderFrame powf o f s).2.inputTexture =
      s.inputTexture.map (fun t => updateSubresource t f.data f.step) := by
  have h1 := uploadParams_textures o.mapConstBuffer s
  have h2 := uploadInput_textures f (uploadParams o.mapConstBuffer s)
  have h3 := dispatchKernel_textures powf f (uploadInput f (uploadParams o.mapConstBuffer s))
  have h4 : ∀ s0 : Renderer, (copyToOutput f s0).inputTexture = s0.inputTexture := by
    intro s0
    cases hi : s0.inputTexture <;> cases ho : s0.outputTexture <;>
      simp [copyToOutput, emit, hi, ho]
  have h5 : ∀ (s0 : Renderer) (out : Mat),
      (readback o.mapOutput out s0).2.inputTexture = s0.inputTexture := by
    intro s0 out
    cases o.mapOutput <;> simp [readback, emit]
  unfold renderFrame
  rw [h5, h4, h3.1, h2.1, h1.1]

theorem uploadInput_reads (f : Mat) (s : Renderer) (t : Texture2D)
    (ht : s.inputTexture = some t) (hw : t.width = f.cols) (hh : t.height = f.rows) :
    (uploadInput f s).log = s.log ++
      [.updateSubresource (some t.handle)
        ((List.range f.rows).map fun i => (i * f.step, i * f.step + 4 * f.cols))] ∧
    ∃ t2, (uploadInput f s).inputTexture = some t2 ∧
      ∀ i k, i < f.rows → k < 4 * f.cols → t2.texels i k = f.data (i * f.step + k) := by
  refine ⟨?_, _, (uploadInput_textures f s).1.trans (by rw [ht]; rfl), ?_⟩
  · simp [uploadInput, ht, emit, uploadReads, hw, hh]
  · intro i k hi hk
    simp [updateSubresource, hw, hh, hi, hk]

/-- C10: the upload is a raw byte copy into a texture of 4 bytes per texel.  On an input
texture of the size of the frame, `UpdateSubresource` reads for each row `i < rows` the
`4 * cols` bytes at offsets `[i * step, i * step + 4 * cols)` of the host buffer and stores
them unchanged as row `i` of the texture.  For a 3-channel image built by the binding
(`step = 3 * cols`, `3 * rows * cols` bytes) with `rows >= 1` and `cols >= 1`, processed by an
initialized renderer that allocates its surfaces for it: the logged upload reads exactly those
ranges; the read of each row ends `cols` bytes after the `cols * elemSize` bytes of that row;
the read of the last row ends at `3 * rows * cols + cols`, that is `cols` bytes past the end
of the buffer; and the last `cols` bytes of the last texture row are bytes from outside the
buffer. -/
theorem upload_reads_past_row_end (powf : ℚ → ℚ → ℚ) (o : FrameOracle) (rows cols : Nat)
    (bytes : List Nat) (s : Renderer) (hlen : bytes.length = 3 * rows * cols) (hr : 1 ≤ rows)
    (hc : 1 ≤ cols) (hinit : s.status.isInitialized = true)
    (ht : o.textures = ⟨true, true, true, true⟩)
    (hne : cols ≠ s.status.textureWidth ∨ rows ≠ s.status.textureHeight) :
    (∀ (f : Mat) (s0 : Renderer) (t : Texture2D), s0.inputTexture = some t →
      t.width = f.cols → t.height = f.rows →
      (uploadInput f s0).log = s0.log ++
        [.updateSubresource (some t.handle)
          ((List.range f.rows).map fun i => (i * f.step, i * f.step + 4 * f.cols))] ∧
      ∃ t2, (uploadInput f s0).inputTexture = some t2 ∧
        ∀ i k, i < f.rows → k < 4 * f.cols → t2.texels i k = f.data (i * f.step + k)) ∧
    GpuOp.updateSubresource (some s.nextHandle)
        ((List.range rows).map fun i => (i * (3 * cols), i * (3 * cols) + 4 * cols))
      ∈ (process_frame powf o [rows, cols, 3] bytes s).2.log ∧
    (∀ i, i < rows →
      i * (3 * cols) + 4 * cols =
        i * (Mat.ofArray rows cols bytes).step +
          (Mat.ofArray rows cols bytes).cols * (Mat.ofArray rows cols bytes).elemSize + cols) ∧
    (rows - 1) * (3 * cols) + 4 * cols = 3 * rows * cols + cols ∧
    (rows - 1) * (3 * cols) + 4 * cols = bytes.length + cols ∧
    bytes.length < (rows - 1) * (3 * cols) + 4 * cols ∧
    (∃ t, (process_frame powf o [rows, cols, 3] bytes s).2.inputTexture = some t ∧
      (∀ i k, i < rows → k < 4 * cols → t.texels i k = bytes[i * (3 * cols) + k]?) ∧
      (∀ k, 3 * cols ≤ k → k < 4 * cols → t.texels (rows - 1) k = none)) := by
  have hlast : (rows - 1) * (3 * cols) + 4 * cols = 3 * rows * cols + cols := by
    obtain ⟨r, rfl⟩ : ∃ r, rows = r + 1 := ⟨rows - 1, by omega⟩
    simp only [Nat.add_sub_cancel]
    ring
  have hstep : (Mat.ofArray rows cols bytes).step = 3 * cols := Nat.mul_comm _ _
  have hpf : process_frame powf o [rows, cols, 3] bytes s =
      processFrame powf o (Mat.ofArray rows cols bytes) s := rfl
  have hres := processFrame_resize powf o (Mat.ofArray rows cols bytes) s hinit ht hne
  have hs1 := createTextures_ok (Mat.ofArray rows cols bytes).cols
    (Mat.ofArray rows cols bytes).rows s
  have hup := uploadInput_reads (Mat.ofArray rows cols bytes)
    (uploadParams o.mapConstBuffer
      (createTextures ⟨true, true, true, true⟩ (Mat.ofArray rows cols bytes).cols
        (Mat.ofArray rows cols bytes).rows s).2)
    ⟨s.nextHandle, cols, rows, fun _ _ => none⟩
    (by rw [(uploadParams_textures _ _).1, hs1]; rfl) rfl rfl
  have htex : ∀ i k, i < rows → k < 4 * cols →
      (updateSubresource ⟨s.nextHandle, cols, rows, fun _ _ => none⟩
        (Mat.ofArray rows cols bytes).data (Mat.ofArray rows cols bytes).step).texels i k =
        bytes[i * (3 * cols) + k]? := by
    intro i k hi hk
    simp [updateSubresource, hi, hk, Mat.ofArray, Nat.mul_comm cols 3]
  refine ⟨fun f s0 t h1 h2 h3 => uploadInput_reads f s0 t h1 h2 h3, ?_, ?_, hlast,
    by rw [hlast, hlen], by rw [hlast, hlen]; omega, ?_⟩
  · rw [hpf, hres]
    apply renderFrame_log_mem
    rw [hup.1]
    apply List.mem_append_right
    simp [Mat.ofArray, Nat.mul_comm cols 3]
  · intro i _
    rw [hstep]
    show _ = i * (3 * cols) + cols * 3 + cols
    omega
  · refine ⟨_, ?_, htex, ?_⟩
    · rw [hpf, hres, renderFrame_inputTexture, hs1]
      rfl
    · intro k hk1 hk2
      rw [htex (rows - 1) k (by omega) hk2]
      apply List.getElem?_eq_none
      rw [hlen]
      have : (rows - 1) * (3 * cols) + 3 * cols = 3 * rows * cols := by
        obtain ⟨r, rfl⟩ : ∃ r, rows = r + 1 := ⟨rows - 1, by omega⟩
        simp only [Nat.add_sub_cancel]
        ring
      omega

theorem upload_reads_past_row_end_witness :
    GpuOp.updateSubresource (some (construct ⟨true, true, .ok none, true⟩).nextHandle)
        ((List.range 2).map fun i => (i * (3 * 1), i * (3 * 1) + 4 * 1))
      ∈ (process_frame (fun x _ => x) ⟨⟨true, true, true, true⟩, true, some 4⟩ [2, 1, 3]
          [1, 2, 3, 4, 5, 6] (construct ⟨true, true, .ok none, true⟩)).2.log :=
  (upload_reads_past_row_end (fun x _ => x) ⟨⟨true, true, true, true⟩, true, some 4⟩ 2 1
    [1, 2, 3, 4, 5, 6] (construct ⟨true, true, .ok none, true⟩) (by decide) (by decide)
    (by decide) (by decide) rfl (by decide)).2.1
end dx11_renderer
